import Mathlib

/-!
Verification of the basketball shot-analysis core (`app.py`, class `ShotAnalyzer`).

The development shallowly embeds the analyzer's phase state machine
(`detect_shooting_phase`), the timing-window oracle (`get_optimal_flaw_timing`),
the capture selector (`capture_phase_specific_stills`), the angle helper
(`calculate_angle`), the flaw catalog (`analyze_phase_specific_flaws` with its
temporal-tracker helpers), the aggregate score (`analyze_detailed_flaws`) and
the summary (`get_shot_summary`).

Conventions:
* Python floats are modelled as elements of a linear ordered field (ℚ where the
  logic is threshold arithmetic, ℝ where square roots / inverse cosines occur).
* A NaN produced by numpy (0/0 division inside `calculate_angle`) is modelled
  as `Option.none`; every Python comparison against NaN is false, which the
  embedding mirrors by pattern matching.
* Mutable attributes of the `ShotAnalyzer` object are explicit state records
  threaded through the functions.
-/

/-- The five phase labels emitted by `detect_shooting_phase`. -/
inductive Phase
  | preparation
  | shooting
  | release
  | follow_through
  | unknown
  deriving DecidableEq, Repr

/-- Ordinal used by the spec: preparation(0) < shooting(1) < release(2) <
follow_through(3).  `unknown` is excluded from ordinal comparisons by the
claims; it is mapped to 0 but never compared. -/
def phaseOrd : Phase → ℕ
  | Phase.preparation => 0
  | Phase.shooting => 1
  | Phase.release => 2
  | Phase.follow_through => 3
  | Phase.unknown => 0

/-- Per-frame measurements consumed by `detect_shooting_phase`, derived from
the landmarks of one frame.  `armExtension` is the value of
`calculate_angle(right_shoulder, right_elbow, right_wrist)`; the source binds it
twice (as `elbow_angle` and as `arm_extension`) with identical arguments, so a
single field stands for both.  `wristShoulderDelta` is
`(right_shoulder.y - right_wrist.y) * 100`, `shoulderHeightDelta` is
`abs(right_shoulder.y - right_hip.y) * 100`. -/
structure PhaseFrame (α : Type) where
  armExtension : α
  wristShoulderDelta : α
  shoulderHeightDelta : α
  deriving DecidableEq, Repr

/-- The analyzer attributes read or written by `detect_shooting_phase`:
`frame_count` (incremented by `process_frame`), the two sticky flags, and
`previous_wrist_height` (absent before the first frame, hence `Option`). -/
structure AnalyzerState (α : Type) where
  frame_count : ℕ
  shooting_started : Bool
  release_detected : Bool
  previous_wrist_height : Option α
  deriving DecidableEq, Repr

/-- The `wrist_shoulder_delta < self.previous_wrist_height` test of the
alternative follow-through branch; false when the attribute does not exist
yet (`hasattr` guard). -/
def decliningWrist {α : Type} [LinearOrder α] (prev : Option α) (wsd : α) : Bool :=
  match prev with
  | some p => decide (wsd < p)
  | none => false

/-- Shallow embedding of `ShotAnalyzer.detect_shooting_phase`.  `none` input
models a frame with no landmarks (returns "unknown" before the `try` block, so
no state is touched).  With landmarks present every return path runs the
`finally` block, which stores the current wrist delta in
`previous_wrist_height`. -/
def detect_shooting_phase {α : Type} [LinearOrderedField α]
    (st : AnalyzerState α) (fr : Option (PhaseFrame α)) : Phase × AnalyzerState α :=
  match fr with
  | none => (Phase.unknown, st)
  | some f =>
    let wsd := f.wristShoulderDelta
    let ext := f.armExtension
    let shd := f.shoulderHeightDelta
    let st1 : AnalyzerState α := { st with previous_wrist_height := some wsd }
    if st.release_detected then
      if 15 ≤ wsd ∧ 160 ≤ ext then (Phase.release, st1)
      else (Phase.follow_through, st1)
    else if st.shooting_started = true ∧ 150 ≤ ext ∧ 10 ≤ wsd ∧
        decliningWrist st.previous_wrist_height wsd = true then
      (Phase.follow_through, st1)
    else if 165 ≤ ext ∧ 25 ≤ wsd then
      (Phase.release, { st1 with release_detected := true, shooting_started := true })
    else if 10 ≤ wsd ∨ 135 ≤ ext ∨ 25 ≤ shd then
      (Phase.shooting, { st1 with shooting_started := true })
    else if st.shooting_started then
      (Phase.shooting, st1)
    else if st.frame_count ≤ 8 ∧ st.shooting_started = false ∧ wsd < 10 ∧ ext < 135 ∧ shd < 25 then
      (Phase.preparation, st1)
    else if st.shooting_started = false then
      (Phase.shooting, { st1 with shooting_started := true })
    else
      (Phase.shooting, st1)

/-- One program-level call of `detect_shooting_phase`: the caller
(`process_frame` for the first call of a frame, or an inner re-invocation)
determines the value of `frame_count` at the moment of the call, so a call is
a pair of the frame counter value and the frame measurements. -/
def detectCall {α : Type} [LinearOrderedField α]
    (st : AnalyzerState α) (c : ℕ × Option (PhaseFrame α)) : Phase × AnalyzerState α :=
  detect_shooting_phase { st with frame_count := c.1 } c.2

/-- A sequence of calls of `detect_shooting_phase` within one analysis session:
returns the emitted labels in order together with the final state. -/
def runCalls {α : Type} [LinearOrderedField α]
    (st : AnalyzerState α) : List (ℕ × Option (PhaseFrame α)) → List Phase × AnalyzerState α
  | [] => ([], st)
  | c :: cs =>
    let r := detectCall st c
    let rest := runCalls r.2 cs
    (r.1 :: rest.1, rest.2)

/-- The analyzer state right after `reset_analysis_state` (or `__init__`):
counters zero, both sticky flags false, no previous wrist height. -/
def freshState (α : Type) [LinearOrderedField α] : AnalyzerState α :=
  { frame_count := 0, shooting_started := false, release_detected := false,
    previous_wrist_height := none }

section PhaseLemmas

variable {α : Type} [LinearOrderedField α]

/-- `shooting_started` is only ever assigned `True` inside
`detect_shooting_phase`: a true flag stays true. -/
theorem shooting_started_mono (st : AnalyzerState α) (fr : Option (PhaseFrame α))
    (h : st.shooting_started = true) :
    (detect_shooting_phase st fr).2.shooting_started = true := by
  cases fr with
  | none => simpa [detect_shooting_phase] using h
  | some f =>
    simp only [detect_shooting_phase]
    split_ifs <;> simp_all

/-- `release_detected` is only ever assigned `True` inside
`detect_shooting_phase`: a true flag stays true. -/
theorem release_detected_mono (st : AnalyzerState α) (fr : Option (PhaseFrame α))
    (h : st.release_detected = true) :
    (detect_shooting_phase st fr).2.release_detected = true := by
  cases fr with
  | none => simpa [detect_shooting_phase] using h
  | some f =>
    simp only [detect_shooting_phase]
    split_ifs <;> simp_all

/-- Once `shooting_started` holds, the preparation branch (which requires the
flag to be false) is unreachable. -/
theorem no_preparation_of_shooting_started (st : AnalyzerState α)
    (fr : Option (PhaseFrame α)) (h : st.shooting_started = true) :
    (detect_shooting_phase st fr).1 ≠ Phase.preparation := by
  cases fr with
  | none => simp [detect_shooting_phase]
  | some f =>
    simp only [detect_shooting_phase]
    split_ifs <;> simp_all

/-- Once `release_detected` holds, the first branch fires and only `release`
or `follow_through` can be emitted. -/
theorem label_of_release_detected (st : AnalyzerState α)
    (fr : Option (PhaseFrame α)) (h : st.release_detected = true) :
    (detect_shooting_phase st fr).1 ≠ Phase.preparation ∧
    (detect_shooting_phase st fr).1 ≠ Phase.shooting := by
  cases fr with
  | none => simp [detect_shooting_phase]
  | some f =>
    simp only [detect_shooting_phase]
    split_ifs <;> simp_all

/-- A frame labelled `shooting` leaves the analyzer with
`shooting_started = true` (every branch that emits `shooting` either sets the
flag or requires it). -/
theorem shooting_label_sets_flag (st : AnalyzerState α) (fr : Option (PhaseFrame α))
    (h : (detect_shooting_phase st fr).1 = Phase.shooting) :
    (detect_shooting_phase st fr).2.shooting_started = true := by
  cases fr with
  | none => simp [detect_shooting_phase] at h
  | some f =>
    simp only [detect_shooting_phase] at h ⊢
    split_ifs at h ⊢ <;> simp_all

/-- A frame labelled `release` leaves the analyzer with
`release_detected = true` (either the flag already held, or the strict release
branch just set it). -/
theorem release_label_sets_flag (st : AnalyzerState α) (fr : Option (PhaseFrame α))
    (h : (detect_shooting_phase st fr).1 = Phase.release) :
    (detect_shooting_phase st fr).2.release_detected = true := by
  cases fr with
  | none => simp [detect_shooting_phase] at h
  | some f =>
    simp only [detect_shooting_phase] at h ⊢
    split_ifs at h ⊢ <;> simp_all

end PhaseLemmas

/-- C1: within one analysis session, the sticky flags `shooting_started` and
`release_detected` only ever transition false→true between consecutive calls of
`detect_shooting_phase` (a true flag stays true for the rest of the run), and
after any call on which `shooting_started` is true the classifier never emits
`preparation` again, while after any call on which `release_detected` is true
it never emits `preparation` or `shooting` again. -/
theorem sticky_flags_irreversible_and_lock {α : Type} [LinearOrderedField α]
    (st : AnalyzerState α) (cs : List (ℕ × Option (PhaseFrame α))) :
    (st.shooting_started = true →
      (runCalls st cs).2.shooting_started = true ∧
      Phase.preparation ∉ (runCalls st cs).1) ∧
    (st.release_detected = true →
      (runCalls st cs).2.release_detected = true ∧
      Phase.preparation ∉ (runCalls st cs).1 ∧
      Phase.shooting ∉ (runCalls st cs).1) := by
  induction cs generalizing st with
  | nil => simp [runCalls]
  | cons c cs ih =>
    have step1 := shooting_started_mono (α := α) { st with frame_count := c.1 } c.2
    have step2 := no_preparation_of_shooting_started (α := α) { st with frame_count := c.1 } c.2
    have step3 := release_detected_mono (α := α) { st with frame_count := c.1 } c.2
    have step4 := label_of_release_detected (α := α) { st with frame_count := c.1 } c.2
    refine ⟨fun h => ?_, fun h => ?_⟩
    · have hs := step1 h
      have ihr := (ih (detectCall st c).2).1 hs
      refine ⟨ihr.1, ?_⟩
      simp only [runCalls, List.mem_cons, not_or]
      exact ⟨fun hc => step2 h hc.symm, fun hm => ihr.2 hm⟩
    · have hs := step3 h
      have ihr := (ih (detectCall st c).2).2 hs
      refine ⟨ihr.1, ?_, ?_⟩
      · simp only [runCalls, List.mem_cons, not_or]
        exact ⟨fun hc => (step4 h).1 hc.symm, fun hm => ihr.2.1 hm⟩
      · simp only [runCalls, List.mem_cons, not_or]
        exact ⟨fun hc => (step4 h).2 hc.symm, fun hm => ihr.2.2 hm⟩

/-- Witness for C1 at a concrete state with both flags set and one further
frame: the flags survive and no preparation/shooting label appears. -/
theorem sticky_flags_irreversible_and_lock_witness :
    (runCalls (⟨5, true, true, none⟩ : AnalyzerState ℚ)
        [(6, some ⟨160, 5, 20⟩)]).2.release_detected = true ∧
    Phase.preparation ∉ (runCalls (⟨5, true, true, none⟩ : AnalyzerState ℚ)
        [(6, some ⟨160, 5, 20⟩)]).1 ∧
    Phase.shooting ∉ (runCalls (⟨5, true, true, none⟩ : AnalyzerState ℚ)
        [(6, some ⟨160, 5, 20⟩)]).1 :=
  (sticky_flags_irreversible_and_lock (⟨5, true, true, none⟩ : AnalyzerState ℚ)
    [(6, some ⟨160, 5, 20⟩)]).2 rfl

/-- C2 counterexample: starting from the reset state, the three landmark-present
calls below are labelled `shooting`, `follow_through`, `release` — the third
label's ordinal (2) is strictly below the second's (3), and neither label is
`unknown`.  The alternative follow-through branch does not set
`release_detected`, so a later frame meeting the strict release thresholds
re-enters `release` after `follow_through`. -/
theorem phase_ordinal_decreases_counterexample :
    (runCalls (freshState ℚ)
        [(1, some ⟨150, 20, 0⟩), (2, some ⟨150, 10, 0⟩), (3, some ⟨170, 30, 0⟩)]).1 =
      [Phase.shooting, Phase.follow_through, Phase.release] ∧
    phaseOrd Phase.release < phaseOrd Phase.follow_through ∧
    Phase.follow_through ≠ Phase.unknown ∧ Phase.release ≠ Phase.unknown := by
  decide

/-- C2 amended: across two consecutive calls of `detect_shooting_phase` whose
labels are not `unknown`, the phase ordinal never decreases **except
immediately after a `follow_through` label** (a `follow_through` frame may be
followed by `release` or `shooting` when the arm re-extends).  In particular a
`preparation` label can never follow `shooting`, `release` or `follow_through`,
and a `release` label is only ever followed by `release` or `follow_through`. -/
theorem phase_ordinal_nondecreasing_amended {α : Type} [LinearOrderedField α]
    (st : AnalyzerState α) (c d : ℕ × Option (PhaseFrame α))
    (h1 : (detectCall st c).1 ≠ Phase.follow_through)
    (h2 : (detectCall st c).1 ≠ Phase.unknown)
    (h3 : (detectCall (detectCall st c).2 d).1 ≠ Phase.unknown) :
    phaseOrd (detectCall st c).1 ≤ phaseOrd (detectCall (detectCall st c).2 d).1 := by
  set st1 := (detectCall st c).2 with hst1
  rcases hp : (detectCall st c).1 with _ | _ | _ | _ | _
  · simp [phaseOrd]
  · -- previous label `shooting`: the flag is set, so the next label cannot be
    -- `preparation`; with `unknown` excluded its ordinal is at least 1
    have hflag : st1.shooting_started = true :=
      shooting_label_sets_flag { st with frame_count := c.1 } c.2 hp
    have hflag2 : ({ st1 with frame_count := d.1 } : AnalyzerState α).shooting_started = true :=
      hflag
    have hnp := no_preparation_of_shooting_started { st1 with frame_count := d.1 } d.2 hflag2
    rcases hq : (detectCall st1 d).1 with _ | _ | _ | _ | _ <;>
      simp_all [phaseOrd, detectCall]
  · -- previous label `release`: `release_detected` now holds, so the next label
    -- is `release` or `follow_through`
    have hflag : st1.release_detected = true :=
      release_label_sets_flag { st with frame_count := c.1 } c.2 hp
    have hflag2 : ({ st1 with frame_count := d.1 } : AnalyzerState α).release_detected = true :=
      hflag
    have hnl := label_of_release_detected { st1 with frame_count := d.1 } d.2 hflag2
    rcases hq : (detectCall st1 d).1 with _ | _ | _ | _ | _ <;>
      simp_all [phaseOrd, detectCall]
  · exact absurd hp h1
  · exact absurd hp h2

/-- Witness for the amended C2 at concrete calls: a `shooting` label followed by
a `release` label, with ordinals 1 ≤ 2. -/
theorem phase_ordinal_nondecreasing_amended_witness :
    phaseOrd (detectCall (freshState ℚ) (1, some ⟨150, 20, 0⟩)).1 ≤
      phaseOrd (detectCall (detectCall (freshState ℚ) (1, some ⟨150, 20, 0⟩)).2
        (2, some ⟨170, 30, 0⟩)).1 :=
  phase_ordinal_nondecreasing_amended (freshState ℚ) (1, some ⟨150, 20, 0⟩)
    (2, some ⟨170, 30, 0⟩) (by decide) (by decide) (by decide)

/-- The synthetic 20-frame sequence of C5: frames 1–8 hold elbow angle 160° and
wrist-shoulder delta 5; frames 9–20 hold elbow angle 170° and wrist-shoulder
delta 30.  The shoulder-height delta is kept below the 25 activity threshold
throughout.  `process_frame` increments `frame_count` before phase detection,
so frame k runs with counter k. -/
def syntheticScenario : List (ℕ × Option (PhaseFrame ℚ)) :=
  (List.range 20).map fun i =>
    (i + 1, some (if i < 8 then ⟨160, 5, 20⟩ else ⟨170, 30, 20⟩))

/-- C5 counterexample: on the synthetic sequence the very first frame is
labelled `shooting`, not `preparation` — the 160° elbow angle already crosses
the `arm_extension >= 135` active-motion threshold, so the shooting branch
fires before the preparation branch is reached. -/
theorem synthetic_scenario_counterexample :
    (runCalls (freshState ℚ) syntheticScenario).1.head? = some Phase.shooting ∧
    Phase.shooting ≠ Phase.preparation := by
  decide

/-- C5 amended: on the synthetic sequence the classifier labels frames 1–8
`shooting` (elbow angle 160° ≥ the 135° active-motion threshold sets
`shooting_started` at frame 1), transitions to `release` at frame 9 where both
strict release thresholds are met, keeps `release_detected` true from frame 9
through frame 20, and labels no frame of the sequence `preparation`. -/
theorem synthetic_scenario_amended :
    (runCalls (freshState ℚ) syntheticScenario).1 =
      List.replicate 8 Phase.shooting ++ List.replicate 12 Phase.release ∧
    ((List.range 12).all fun j =>
      (runCalls (freshState ℚ) (syntheticScenario.take (9 + j))).2.release_detected) = true ∧
    Phase.preparation ∉ (runCalls (freshState ℚ) syntheticScenario).1 := by
  decide

/-- Character-list prefix test (building block for substring containment). -/
def charPre : List Char → List Char → Bool
  | [], _ => true
  | _ :: _, [] => false
  | a :: as, b :: bs => a == b && charPre as bs

/-- Character-list contiguous-substring test. -/
def charSub (p : List Char) : List Char → Bool
  | [] => charPre p []
  | c :: rest => charPre p (c :: rest) || charSub p rest

/-- Python's `pat in s` substring containment on strings. -/
def strContains (s pat : String) : Bool := charSub pat.data s.data

/-- Python's `s.startswith(pat)`. -/
def strStarts (s pat : String) : Bool := charPre pat.data s.data

/-- Landmark-derived quantities read by `get_optimal_flaw_timing` and by the
emergency tier of `capture_phase_specific_stills`.  Coordinates are the raw
normalized pose values; `elbowAngle` is the value of
`calculate_angle(right_shoulder, right_elbow, right_wrist)` computed from the
same frame (the inverse-cosine computation itself is embedded separately as
`calculate_angle`). -/
structure TimingLandmarks where
  rShoulderX : ℚ
  rShoulderY : ℚ
  rElbowY : ℚ
  rWristY : ℚ
  lShoulderX : ℚ
  lHipX : ℚ
  rHipX : ℚ
  lKneeX : ℚ
  rKneeX : ℚ
  elbowAngle : ℚ
  deriving DecidableEq, Repr

/-- The part of `thumb_flick_flaw_tracker` read and written by
`get_optimal_flaw_timing`; `none` models the attribute not existing yet
(`hasattr` tests). -/
structure ThumbOracleState where
  capture_frame_ready : Bool
  frames_since_release : ℕ
  deriving DecidableEq, Repr

/-- Result of `get_optimal_flaw_timing`: the boolean, the reason tag, and the
possibly-updated thumb-flick tracker (the thumb branch clears
`capture_frame_ready`). -/
structure TimingResult where
  optimal : Bool
  reason : String
  tracker : Option ThumbOracleState
  deriving DecidableEq, Repr

/-- Shallow embedding of `ShotAnalyzer.get_optimal_flaw_timing`.  `fip` is the
`frames_in_phase` argument computed by the caller. -/
def get_optimal_flaw_timing (flaw_name : String) (lm : Option TimingLandmarks)
    (phase : Phase) (fip : ℤ) (tr : Option ThumbOracleState) : TimingResult :=
  match lm with
  | none => ⟨false, "no_landmarks", tr⟩
  | some L =>
    let elbow_angle := L.elbowAngle
    let shoulder_height := L.rShoulderY
    let wrist_height := L.rWristY
    let elbow_height := L.rElbowY
    let wrist_shoulder_delta := (shoulder_height - wrist_height) * 100
    let wrist_velocity_indicator := |wrist_height - shoulder_height|
    let hip_center_x := (L.lHipX + L.rHipX) / 2
    let shoulder_center_x := (L.lShoulderX + L.rShoulderX) / 2
    let lateral_balance := |hip_center_x - shoulder_center_x| * 100
    let knee_center_x := (L.lKneeX + L.rKneeX) / 2
    let knee_hip_alignment := |knee_center_x - hip_center_x| * 100
    if strContains flaw_name "balance" && strContains flaw_name "preparation" then
      let is_balanced_position := decide (8 ≤ fip) && decide (fip ≤ 15) &&
        decide (|shoulder_height - elbow_height| < 0.025) && decide (lateral_balance > 1.8)
      ⟨decide (phase = Phase.preparation) && is_balanced_position,
        "balance_static_equilibrium", tr⟩
    else if strContains flaw_name "stance" && strContains flaw_name "preparation" then
      let optimal_stance_timing := decide (6 ≤ fip) && decide (fip ≤ 12) &&
        decide (knee_hip_alignment > 1.2) && decide (wrist_velocity_indicator < 0.15)
      ⟨decide (phase = Phase.preparation) && optimal_stance_timing,
        "stance_established_base", tr⟩
    else if strContains flaw_name "elbow" && strContains flaw_name "shooting" then
      let power_position_timing := decide (85 ≤ elbow_angle) && decide (elbow_angle ≤ 95) &&
        decide (10 ≤ wrist_shoulder_delta) && decide (wrist_shoulder_delta ≤ 25) &&
        decide (2 ≤ fip) && decide (fip ≤ 8)
      ⟨decide (phase = Phase.shooting) && power_position_timing,
        "elbow_peak_force_generation", tr⟩
    else if strContains flaw_name "alignment" && strContains flaw_name "shooting" then
      let early_force_transfer_timing := decide (2 ≤ fip) && decide (fip ≤ 6) &&
        decide (95 ≤ elbow_angle) && decide (elbow_angle ≤ 120) &&
        decide (8 ≤ wrist_shoulder_delta) && decide (wrist_velocity_indicator > 0.05)
      ⟨decide (phase = Phase.shooting) && early_force_transfer_timing,
        "alignment_early_shooting_setup", tr⟩
    else if strContains flaw_name "arc" then
      let trajectory_formation := decide (115 ≤ elbow_angle) && decide (elbow_angle ≤ 140) &&
        decide (20 ≤ wrist_shoulder_delta) && decide (6 ≤ fip) && decide (fip ≤ 12)
      ⟨decide (phase = Phase.shooting) && trajectory_formation,
        "arc_trajectory_formation", tr⟩
    else if strContains flaw_name "release" && strContains flaw_name "height" then
      let exact_release_timing := decide (phase = Phase.release) && decide (fip = 0) &&
        decide (155 ≤ elbow_angle) && decide (18 ≤ wrist_shoulder_delta)
      ⟨exact_release_timing, "release_exact_ball_departure", tr⟩
    else if strContains flaw_name "thumb_flick" then
      match tr with
      | some t =>
        if t.capture_frame_ready then
          ⟨true, "thumb_inward_rotation_moment", some { t with capture_frame_ready := false }⟩
        else
          let thumb_flick_window :=
            (decide (phase = Phase.release) || decide (phase = Phase.follow_through)) &&
            decide (1 ≤ fip) && decide (fip ≤ 4) && decide (t.frames_since_release ≤ 4)
          ⟨thumb_flick_window, "thumb_flick_post_release_window", tr⟩
      | none =>
        -- no tracker attribute: both the ready path and the window's hasattr
        -- conjunct are false
        ⟨false, "thumb_flick_post_release_window", tr⟩
    else if strContains flaw_name "follow" ||
        (strContains flaw_name "release" && strContains flaw_name "through") then
      let wrist_snap_timing := decide (phase = Phase.release) &&
        decide (3 ≤ fip) && decide (fip ≤ 7) && decide (165 ≤ elbow_angle) &&
        decide (wrist_height > shoulder_height - 0.08) &&
        decide (|wrist_shoulder_delta - 25| < 5)
      ⟨wrist_snap_timing, "follow_through_wrist_snap", tr⟩
    else if strContains flaw_name "hand" || strContains flaw_name "wrist" then
      let active_control_timing := decide (phase = Phase.shooting) &&
        decide (5 ≤ fip) && decide (fip ≤ 11) && decide (95 ≤ elbow_angle) &&
        decide (elbow_angle ≤ 120) && decide (15 ≤ wrist_shoulder_delta)
      ⟨active_control_timing, "hand_active_control_phase", tr⟩
    else
      ⟨false, "suboptimal_biomechanical_timing", tr⟩

/-- The per-FlawKey record stored in `best_flaw_frames` (the annotated image
and diagnostic text carry no logic and are omitted). -/
structure CaptureRec where
  frame : ℤ
  severity : ℚ
  capture_reason : String
  biomechanical_timing : Bool
  deriving DecidableEq, Repr

/-- One entry of the `flaws` dict passed to `capture_phase_specific_stills`:
its name, its `phase` field, its severity and its priority (`.get` defaults
are irrelevant here because the catalog always sets all four). -/
structure FlawInput where
  name : String
  phase : Phase
  severity : ℚ
  priority : ℕ
  deriving DecidableEq, Repr

/-- Association-list read mirroring a Python dict lookup. -/
def assocGet {κ β : Type} [DecidableEq κ] : List (κ × β) → κ → Option β
  | [], _ => none
  | kv :: rest, k => if kv.1 = k then some kv.2 else assocGet rest k

/-- Association-list write mirroring a Python dict assignment: replace in
place, or append a new key at the end (insertion order preserved). -/
def assocSet {κ β : Type} [DecidableEq κ] : List (κ × β) → κ → β → List (κ × β)
  | [], k, v => [(k, v)]
  | kv :: rest, k, v => if kv.1 = k then (k, v) :: rest else kv :: assocSet rest k v

/-- The analyzer attributes read/written by `capture_phase_specific_stills`. -/
structure CaptureState where
  best_flaw_frames : List (String × CaptureRec)
  phase_history : List Phase
  phase_transition_frames : List (Phase × ℤ)
  captured_flaws : List String
  immediate_thumb_capture_frame : Option ℤ
  thumb_tracker : Option ThumbOracleState
  release_detected : Bool
  frame_count : ℤ
  deriving DecidableEq, Repr

/-- String form of a phase, as used in the `f"{phase}_{flaw_name}"` key. -/
def phaseString : Phase → String
  | Phase.preparation => "preparation"
  | Phase.shooting => "shooting"
  | Phase.release => "release"
  | Phase.follow_through => "follow_through"
  | Phase.unknown => "unknown"

/-- The `any(data['frame'] == current_frame for data in best_flaw_frames.values())`
temporal-separation test. -/
def frameAlreadyUsed (tbl : List (String × CaptureRec)) (fr : ℤ) : Bool :=
  tbl.any fun kv => decide (kv.2.frame = fr)

/-- The `len([k for k in best_flaw_frames if k.startswith(f"{phase}_")]) == 0`
phase-coverage test (true iff some key of the table starts with the phase
prefix). -/
def phaseHasCapture (tbl : List (String × CaptureRec)) (phase : Phase) : Bool :=
  tbl.any fun kv => strStarts kv.1 (phaseString phase ++ "_")

/-- The flaw-specific emergency validity sub-window of the third capture tier. -/
def emergencyAllowed (name : String) (lm : TimingLandmarks) (phase : Phase)
    (fip : ℤ) : Bool :=
  if strContains name "release" && strContains name "height" then
    decide (phase = Phase.release) && decide (fip = 0)
  else if strContains name "elbow" && strContains name "shooting" then
    let elbow_angle := lm.elbowAngle
    decide (phase = Phase.shooting) && decide (fip ≤ 10) &&
      decide (85 ≤ elbow_angle) && decide (elbow_angle ≤ 100)
  else if strContains name "balance" && strContains name "preparation" then
    decide (phase = Phase.preparation) && decide (8 ≤ fip) && decide (fip ≤ 18)
  else if strContains name "follow" ||
      (strContains name "release" && strContains name "through") then
    decide (phase = Phase.release) && decide (3 ≤ fip) && decide (fip ≤ 8)
  else
    true

/-- Result of one iteration of the flaw loop in
`capture_phase_specific_stills`: the updated state, whether a capture
happened, and the final value of the `capture_reason` local. -/
structure CaptureStepResult where
  state : CaptureState
  captured : Bool
  reason : String
  deriving DecidableEq, Repr

/-- The four-tier `if is_optimal_timing: / elif ... / elif ... / elif ...`
chain of the flaw loop, computing the final values of the mutable
`should_capture` / `capture_reason` pair from their values `(sc0, reason0)`
after the thumb-flick override. -/
def tierDecision (tbl : List (String × CaptureRec)) (phase : Phase) (name : String)
    (lm : TimingLandmarks) (current_frame fip : ℤ) (severity : ℚ) (priority : ℕ)
    (is_optimal_timing : Bool) (timing_reason : String) (sc0 : Bool)
    (reason0 : String) : Bool × String :=
  let prevOpt := assocGet tbl (phaseString phase ++ "_" ++ name)
  if is_optimal_timing then
    match prevOpt with
    | none => (true, "optimal_first_" ++ timing_reason)
    | some previous_best =>
      if severity > previous_best.severity * 1.03 ∨
          previous_best.biomechanical_timing = false then
        (true, "optimal_improved_" ++ timing_reason)
      else (sc0, reason0)
  else if prevOpt = none ∧ severity > 45 then
    let frame_used := frameAlreadyUsed tbl current_frame
    let is_follow_through := strContains name "follow" || strContains name "through"
    let is_release_moment := decide (phase = Phase.release) && decide (fip = 0)
    if is_follow_through && is_release_moment then
      (false, "follow_through_timing_restriction")
    else if frame_used = false ∨ priority = 1 then
      (true, "first_occurrence_fallback")
    else
      (false, "temporal_separation_deferred")
  else if severity > 80 ∧ priority ≤ 2 then
    let better : Bool :=
      match prevOpt with
      | none => true
      | some previous_best => decide (previous_best.severity < severity * 0.9)
    if emergencyAllowed name lm phase fip && better then
      let frame_used := frameAlreadyUsed tbl current_frame
      if frame_used = false ∨ priority = 1 then
        (true, "emergency_high_severity_biomechanically_valid")
      else (sc0, reason0)
    else (sc0, reason0)
  else if phaseHasCapture tbl phase = false ∧ severity > 35 then
    (true, "phase_coverage_requirement")
  else (sc0, reason0)

/-- One iteration of the flaw loop of
`ShotAnalyzer.capture_phase_specific_stills` for a single `(flaw_name,
flaw_data)` entry, after the phase-history bookkeeping of the call has been
done. -/
def captureFlawStep (st0 : CaptureState) (lm : TimingLandmarks) (phase : Phase)
    (fl : FlawInput) : CaptureStepResult :=
  if fl.phase ≠ phase then ⟨st0, false, ""⟩
  else if strContains fl.name "preparation" && st0.release_detected then ⟨st0, false, ""⟩
  else if strContains fl.name "shooting_alignment" && st0.release_detected then ⟨st0, false, ""⟩
  else
    let current_frame := st0.frame_count
    let flaw_key := phaseString phase ++ "_" ++ fl.name
    let phase_start := (assocGet st0.phase_transition_frames phase).getD current_frame
    let frames_in_phase := current_frame - phase_start
    let tres := get_optimal_flaw_timing fl.name (some lm) phase frames_in_phase st0.thumb_tracker
    let is_optimal_timing := tres.optimal
    let st1 : CaptureState := { st0 with thumb_tracker := tres.tracker }
    -- SPECIAL CASE: immediate thumb flick capture override (clears the
    -- `immediate_thumb_capture_frame` attribute when it fires)
    let thumbOverride : Bool := strContains fl.name "thumb_flick" &&
      (match st1.immediate_thumb_capture_frame with
       | some n => decide (n = current_frame)
       | none => false)
    let st2 : CaptureState := { st1 with immediate_thumb_capture_frame :=
      if thumbOverride then none else st1.immediate_thumb_capture_frame }
    let sc0 : Bool := thumbOverride
    let reason0 : String := if thumbOverride then "immediate_thumb_flick_detection" else ""
    -- the four-tier if/elif chain assigning should_capture / capture_reason
    let scr : Bool × String :=
      tierDecision st2.best_flaw_frames phase fl.name lm current_frame frames_in_phase
        fl.severity fl.priority is_optimal_timing tres.reason sc0 reason0
    if scr.1 then
      let newRec : CaptureRec :=
        { frame := current_frame, severity := fl.severity,
          capture_reason := scr.2, biomechanical_timing := is_optimal_timing }
      ⟨{ st2 with
          best_flaw_frames := assocSet st2.best_flaw_frames flaw_key newRec,
          captured_flaws :=
            if flaw_key ∈ st2.captured_flaws then st2.captured_flaws
            else st2.captured_flaws ++ [flaw_key] },
        true, scr.2⟩
    else ⟨st2, false, scr.2⟩

/-- Shallow embedding of one call of
`ShotAnalyzer.capture_phase_specific_stills` (`none` landmark input models the
early `return {}` for missing landmarks or a missing annotated frame; an empty
flaw dict likewise returns before any state is touched). -/
def capture_phase_specific_stills (st : CaptureState) (lm : Option TimingLandmarks)
    (flaws : List FlawInput) (phase : Phase) : CaptureState :=
  match lm with
  | none => st
  | some L =>
    if flaws = [] then st
    else
      let st1 : CaptureState :=
        if st.phase_history.getLast? ≠ some phase then
          { st with phase_transition_frames :=
              assocSet st.phase_transition_frames phase st.frame_count }
        else st
      let st2 : CaptureState := { st1 with phase_history := st1.phase_history ++ [phase] }
      flaws.foldl (fun s fl => (captureFlawStep s L phase fl).state) st2

/-- A capture state as produced by `reset_analysis_state`, at a given frame
counter and sticky-flag value. -/
def freshCaptureState (fc : ℤ) (rd : Bool) : CaptureState :=
  { best_flaw_frames := [], phase_history := [], phase_transition_frames := [],
    captured_flaws := [], immediate_thumb_capture_frame := none,
    thumb_tracker := none, release_detected := rd, frame_count := fc }

section AssocLemmas

variable {κ β : Type} [DecidableEq κ]

theorem assocGet_assocSet_self (l : List (κ × β)) (k : κ) (v : β) :
    assocGet (assocSet l k v) k = some v := by
  induction l with
  | nil => simp [assocSet, assocGet]
  | cons kv rest ih =>
    by_cases h : kv.1 = k
    · simp [assocSet, assocGet, h]
    · simp [assocSet, assocGet, h, ih]

theorem assocSet_cons_eq (kv : κ × β) (rest : List (κ × β)) (k : κ) (v : β)
    (hk : kv.1 = k) : assocSet (kv :: rest) k v = (k, v) :: rest := by
  simp [assocSet, hk]

theorem assocSet_cons_ne (kv : κ × β) (rest : List (κ × β)) (k : κ) (v : β)
    (hk : ¬kv.1 = k) : assocSet (kv :: rest) k v = kv :: assocSet rest k v := by
  simp [assocSet, hk]

theorem assocGet_assocSet_ne (l : List (κ × β)) (k k' : κ) (v : β) (h : k' ≠ k) :
    assocGet (assocSet l k v) k' = assocGet l k' := by
  induction l with
  | nil =>
    simp only [assocSet, assocGet, if_neg (show ¬k = k' from fun hh => h hh.symm)]
  | cons kv rest ih =>
    by_cases hk : kv.1 = k
    · rw [assocSet_cons_eq kv rest k v hk]
      simp only [assocGet]
      rw [if_neg (show ¬k = k' from fun hh => h hh.symm),
        if_neg (show ¬kv.1 = k' from by rw [hk]; exact fun hh => h hh.symm)]
    · rw [assocSet_cons_ne kv rest k v hk]
      simp only [assocGet]
      by_cases hk' : kv.1 = k'
      · rw [if_pos hk', if_pos hk']
      · rw [if_neg hk', if_neg hk', ih]

theorem assocGet_some_mem (l : List (κ × β)) (k : κ) (v : β)
    (h : assocGet l k = some v) : (k, v) ∈ l := by
  induction l with
  | nil => simp [assocGet] at h
  | cons kv rest ih =>
    by_cases hk : kv.1 = k
    · simp only [assocGet, if_pos hk] at h
      have h2 : kv.2 = v := Option.some.inj h
      have hkv : kv = (k, v) := by rw [← hk, ← h2]
      rw [← hkv]
      exact List.mem_cons_self kv rest
    · simp only [assocGet, if_neg hk] at h
      exact List.mem_cons_of_mem _ (ih h)

theorem mem_keys_assocSet (l : List (κ × β)) (k x : κ) (v : β)
    (h : x ∈ (assocSet l k v).map Prod.fst) : x ∈ l.map Prod.fst ∨ x = k := by
  induction l with
  | nil =>
    simp only [assocSet, List.map_cons, List.map_nil, List.mem_singleton] at h
    right; exact h
  | cons kv rest ih =>
    by_cases hk : kv.1 = k
    · rw [assocSet_cons_eq kv rest k v hk] at h
      simp only [List.map_cons, List.mem_cons] at h
      rcases h with h | h
      · right; exact h
      · left
        simp only [List.map_cons, List.mem_cons]
        right; exact h
    · rw [assocSet_cons_ne kv rest k v hk] at h
      simp only [List.map_cons, List.mem_cons] at h
      rcases h with h | h
      · left
        simp only [List.map_cons, List.mem_cons]
        left; exact h
      · rcases ih h with h' | h'
        · left
          simp only [List.map_cons, List.mem_cons]
          right; exact h'
        · right; exact h'

theorem keys_nodup_assocSet (l : List (κ × β)) (k : κ) (v : β)
    (h : (l.map Prod.fst).Nodup) : ((assocSet l k v).map Prod.fst).Nodup := by
  induction l with
  | nil => simp [assocSet]
  | cons kv rest ih =>
    rw [List.map_cons, List.nodup_cons] at h
    by_cases hk : kv.1 = k
    · rw [assocSet_cons_eq kv rest k v hk]
      rw [List.map_cons, List.nodup_cons]
      exact ⟨by rw [← hk]; exact h.1, h.2⟩
    · rw [assocSet_cons_ne kv rest k v hk]
      rw [List.map_cons, List.nodup_cons]
      refine ⟨fun hc => ?_, ih h.2⟩
      rcases mem_keys_assocSet rest k kv.1 v hc with h' | h'
      · exact h.1 h'
      · exact hk h'

end AssocLemmas

theorem charPre_self_append (l m : List Char) : charPre l (l ++ m) = true := by
  induction l with
  | nil => simp [charPre]
  | cons a as ih => simp [charPre, ih]

theorem strStarts_append (p s : String) : strStarts (p ++ s) p = true := by
  have h : (p ++ s).data = p.data ++ s.data := String.data_append p s
  simp [strStarts, h, charPre_self_append]

/-- Landmarks used by the C3 counterexample: shooting frames with elbow angle
90° (optimal window) and then 98° (outside the 85–95 optimal band but inside
the 85–100 emergency band). -/
def c3Landmarks1 : TimingLandmarks := ⟨0, 0.5, 0, 0.35, 0, 0, 0, 0, 0, 90⟩

def c3Landmarks2 : TimingLandmarks := ⟨0, 0.5, 0, 0.2, 0, 0, 0, 0, 0, 98⟩

/-- The best-frame table after the three C3 calls: a low-severity call at frame
8 (no capture, records the phase transition), an optimal-timing capture at
frame 10, then a high-severity frame at 11. -/
def c3FinalState : CaptureState :=
  let stA := capture_phase_specific_stills (freshCaptureState 8 false) (some c3Landmarks1)
    [⟨"shooting_elbow", Phase.shooting, 10, 1⟩] Phase.shooting
  let stB := capture_phase_specific_stills { stA with frame_count := 10 } (some c3Landmarks1)
    [⟨"shooting_elbow", Phase.shooting, 50, 1⟩] Phase.shooting
  capture_phase_specific_stills { stB with frame_count := 11 } (some c3Landmarks2)
    [⟨"shooting_elbow", Phase.shooting, 85, 1⟩] Phase.shooting

/-- The intermediate state of the C3 scenario, after the optimal capture. -/
def c3MidState : CaptureState :=
  let stA := capture_phase_specific_stills (freshCaptureState 8 false) (some c3Landmarks1)
    [⟨"shooting_elbow", Phase.shooting, 10, 1⟩] Phase.shooting
  capture_phase_specific_stills { stA with frame_count := 10 } (some c3Landmarks1)
    [⟨"shooting_elbow", Phase.shooting, 50, 1⟩] Phase.shooting

/-- Explicit value of the state after the first C3 call. -/
def c3StateA : CaptureState :=
  ⟨[], [Phase.shooting], [(Phase.shooting, 8)], [], none, none, false, 8⟩

/-- Explicit value of the state after the second C3 call. -/
def c3StateB : CaptureState :=
  ⟨[("shooting_shooting_elbow", ⟨10, 50, "optimal_first_elbow_peak_force_generation", true⟩)],
   [Phase.shooting, Phase.shooting], [(Phase.shooting, 8)], ["shooting_shooting_elbow"],
   none, none, false, 10⟩

/-- Explicit value of the state after the third C3 call. -/
def c3StateC : CaptureState :=
  ⟨[("shooting_shooting_elbow", ⟨11, 85, "emergency_high_severity_biomechanically_valid", false⟩)],
   [Phase.shooting, Phase.shooting, Phase.shooting], [(Phase.shooting, 8)],
   ["shooting_shooting_elbow"], none, none, false, 11⟩

set_option maxHeartbeats 2000000 in
theorem c3_eval1 :
    capture_phase_specific_stills (freshCaptureState 8 false) (some c3Landmarks1)
      [⟨"shooting_elbow", Phase.shooting, 10, 1⟩] Phase.shooting = c3StateA := by
  norm_num +decide [c3Landmarks1, c3StateA, capture_phase_specific_stills, captureFlawStep,
    tierDecision, get_optimal_flaw_timing, emergencyAllowed, freshCaptureState, frameAlreadyUsed,
    phaseHasCapture, phaseString, assocGet, assocSet, strContains, strStarts, charSub, charPre,
    List.foldl]

set_option maxHeartbeats 2000000 in
theorem c3_eval2 :
    capture_phase_specific_stills { c3StateA with frame_count := 10 } (some c3Landmarks1)
      [⟨"shooting_elbow", Phase.shooting, 50, 1⟩] Phase.shooting = c3StateB := by
  norm_num +decide [c3Landmarks1, c3StateA, c3StateB, capture_phase_specific_stills,
    captureFlawStep, tierDecision, get_optimal_flaw_timing, emergencyAllowed, frameAlreadyUsed,
    phaseHasCapture, phaseString, assocGet, assocSet, strContains, strStarts, charSub, charPre,
    List.foldl]

set_option maxHeartbeats 2000000 in
theorem c3_eval3 :
    capture_phase_specific_stills { c3StateB with frame_count := 11 } (some c3Landmarks2)
      [⟨"shooting_elbow", Phase.shooting, 85, 1⟩] Phase.shooting = c3StateC := by
  norm_num +decide [c3Landmarks2, c3StateB, c3StateC, capture_phase_specific_stills,
    captureFlawStep, tierDecision, get_optimal_flaw_timing, emergencyAllowed, frameAlreadyUsed,
    phaseHasCapture, phaseString, assocGet, assocSet, strContains, strStarts, charSub, charPre,
    List.foldl]

/-- C3 counterexample: after the second call the stored record for the key
`shooting_shooting_elbow` was captured at optimal biomechanical timing
(`biomechanical_timing = true`); the third call — severity 85 > 80, priority 1,
inside the emergency elbow sub-window — replaces it with a record whose
`biomechanical_timing` is false.  The emergency tier never consults the stored
record's timing flag, only its severity. -/
theorem optimal_record_replaced_counterexample :
    assocGet c3MidState.best_flaw_frames "shooting_shooting_elbow" =
      some ⟨10, 50, "optimal_first_elbow_peak_force_generation", true⟩ ∧
    assocGet c3FinalState.best_flaw_frames "shooting_shooting_elbow" =
      some ⟨11, 85, "emergency_high_severity_biomechanically_valid", false⟩ := by
  have h1 : c3MidState = c3StateB := by
    simp only [c3MidState]
    rw [c3_eval1]
    exact c3_eval2
  have h2 : c3FinalState = c3StateC := by
    simp only [c3FinalState]
    rw [c3_eval1, c3_eval2]
    exact c3_eval3
  rw [h1, h2]
  constructor <;> decide

/-- A key of the form `phase_flawname` stored in the table makes the
phase-coverage test of tier 4 positive (`++` is left associative, so the key
is `(phaseString phase ++ "_") ++ name`). -/
theorem phaseHasCapture_of_get (tbl : List (String × CaptureRec)) (phase : Phase)
    (name : String) (prev : CaptureRec)
    (h : assocGet tbl (phaseString phase ++ "_" ++ name) = some prev) :
    phaseHasCapture tbl phase = true := by
  have hmem := assocGet_some_mem _ _ _ h
  rw [phaseHasCapture, List.any_eq_true]
  refine ⟨_, hmem, ?_⟩
  show strStarts (phaseString phase ++ "_" ++ name) (phaseString phase ++ "_") = true
  exact strStarts_append (phaseString phase ++ "_") name

/-- Two lookups of the same key cannot produce records with different
`biomechanical_timing` flags. -/
theorem record_bio_clash {tbl : List (String × CaptureRec)} {key : String}
    {prev rnew : CaptureRec} (h1 : assocGet tbl key = some prev)
    (h2 : assocGet tbl key = some rnew) (hb1 : prev.biomechanical_timing = true)
    (hb2 : rnew.biomechanical_timing = false) : False := by
  have he : prev = rnew := Option.some.inj (h1.symm.trans h2)
  rw [he, hb2] at hb1
  exact Bool.false_ne_true hb1

/-- If the tier chain approves a capture although the oracle said the timing is
not optimal and the key already holds a record, then either the pre-set
`(sc0, reason0)` pair carried an approval (the thumb-flick override), or the
emergency high-severity tier fired with all its side conditions. -/
theorem tierDecision_capture_of_not_optimal (tbl : List (String × CaptureRec))
    (phase : Phase) (name : String) (lm : TimingLandmarks) (cf fip : ℤ)
    (severity : ℚ) (priority : ℕ) (treason : String) (sc0 : Bool) (reason0 : String)
    (prev : CaptureRec)
    (hprev : assocGet tbl (phaseString phase ++ "_" ++ name) = some prev)
    (hcap : (tierDecision tbl phase name lm cf fip severity priority false treason
      sc0 reason0).1 = true) :
    sc0 = true ∨
    (severity > 80 ∧ priority ≤ 2 ∧ emergencyAllowed name lm phase fip = true ∧
      prev.severity < severity * 0.9) := by
  rw [tierDecision] at hcap
  simp only [hprev] at hcap
  split_ifs at hcap <;>
    first
      | exact absurd ‹false = true› (by decide)
      | exact False.elim ‹False›
      | exact False.elim (‹False ∧ severity > 45›).1
      | exact Or.inl hcap
      | (exact absurd (phaseHasCapture_of_get tbl phase name prev hprev)
          (by rw [(‹phaseHasCapture tbl phase = false ∧ severity > 35›).1]
              exact Bool.false_ne_true))
      | (have hand := ‹(emergencyAllowed name lm phase fip &&
            decide (prev.severity < severity * 0.9)) = true›
         have hsp := ‹severity > 80 ∧ priority ≤ 2›
         simp only [Bool.and_eq_true] at hand
         exact Or.inr ⟨hsp.1, hsp.2, hand.1, of_decide_eq_true hand.2⟩)

set_option maxHeartbeats 2000000 in
theorem c3_step_eval :
    captureFlawStep { c3StateB with frame_count := 11 } c3Landmarks2 Phase.shooting
      ⟨"shooting_elbow", Phase.shooting, 85, 1⟩ =
    ⟨⟨[("shooting_shooting_elbow",
        ⟨11, 85, "emergency_high_severity_biomechanically_valid", false⟩)],
      [Phase.shooting, Phase.shooting], [(Phase.shooting, 8)],
      ["shooting_shooting_elbow"], none, none, false, 11⟩,
      true, "emergency_high_severity_biomechanically_valid"⟩ := by
  norm_num +decide [c3Landmarks2, c3StateB, captureFlawStep, tierDecision,
    get_optimal_flaw_timing, emergencyAllowed, frameAlreadyUsed, phaseHasCapture,
    phaseString, assocGet, assocSet, strContains, strStarts, charSub, charPre]

/-- C3 amended: the `best_flaw_frames` dict holds at most one CaptureRecord
per FlawKey (each per-flaw step preserves key uniqueness of the table), and a
stored record with `biomechanical_timing = true` is replaced by a record with
`biomechanical_timing = false` **only** through the immediate thumb-flick
override or through the emergency high-severity tier (severity > 80, priority
≤ 2, inside the flaw-specific emergency sub-window, with the stored severity
below 90 % of the new one).  The unqualified claim fails: the emergency tier
never checks the stored record's timing flag
(`optimal_record_replaced_counterexample`). -/
theorem optimal_capture_replacement_amended (st : CaptureState) (lm : TimingLandmarks)
    (phase : Phase) (fl : FlawInput) :
    ((st.best_flaw_frames.map Prod.fst).Nodup →
      (((captureFlawStep st lm phase fl).state).best_flaw_frames.map Prod.fst).Nodup) ∧
    (∀ key prev rnew,
      assocGet st.best_flaw_frames key = some prev →
      prev.biomechanical_timing = true →
      assocGet ((captureFlawStep st lm phase fl).state).best_flaw_frames key = some rnew →
      rnew.biomechanical_timing = false →
      (strContains fl.name "thumb_flick" = true ∧
        st.immediate_thumb_capture_frame = some st.frame_count) ∨
      (fl.severity > 80 ∧ fl.priority ≤ 2 ∧
        emergencyAllowed fl.name lm phase
          (st.frame_count -
            (assocGet st.phase_transition_frames phase).getD st.frame_count) = true ∧
        prev.severity < fl.severity * 0.9)) := by
  constructor
  · intro hnd
    simp only [captureFlawStep]
    split_ifs <;> first | exact hnd | exact keys_nodup_assocSet _ _ _ hnd
  · intro key prev rnew hget hbio hget' hbio'
    by_cases g1 : fl.phase ≠ phase
    · rw [captureFlawStep, if_pos g1] at hget'
      exact (record_bio_clash hget hget' hbio hbio').elim
    rw [captureFlawStep, if_neg g1] at hget'
    by_cases g2 : (strContains fl.name "preparation" && st.release_detected) = true
    · rw [if_pos g2] at hget'
      exact (record_bio_clash hget hget' hbio hbio').elim
    rw [if_neg g2] at hget'
    by_cases g3 : (strContains fl.name "shooting_alignment" && st.release_detected) = true
    · rw [if_pos g3] at hget'
      exact (record_bio_clash hget hget' hbio hbio').elim
    rw [if_neg g3] at hget'
    simp only [] at hget'
    by_cases gth : (strContains fl.name "thumb_flick" &&
        (match st.immediate_thumb_capture_frame with
         | some n => decide (n = st.frame_count)
         | none => false)) = true
    · left
      simp only [Bool.and_eq_true] at gth
      obtain ⟨hc, hm⟩ := gth
      refine ⟨hc, ?_⟩
      rcases hoption : st.immediate_thumb_capture_frame with _ | n <;>
        rw [hoption] at hm <;> simp at hm
      rw [hm]
    have gthf : (strContains fl.name "thumb_flick" &&
        (match st.immediate_thumb_capture_frame with
         | some n => decide (n = st.frame_count)
         | none => false)) = false := by
      rwa [Bool.not_eq_true] at gth
    rw [gthf] at hget'
    simp only [Bool.false_eq_true, if_false] at hget'
    set fip := st.frame_count -
      (assocGet st.phase_transition_frames phase).getD st.frame_count with hfip
    set tres := get_optimal_flaw_timing fl.name (some lm) phase fip st.thumb_tracker with htres
    by_cases gsc : (tierDecision st.best_flaw_frames phase fl.name lm st.frame_count fip
        fl.severity fl.priority tres.optimal tres.reason false "").1 = true
    · rw [if_pos gsc] at hget'
      simp only [] at hget'
      by_cases hkey : key = phaseString phase ++ "_" ++ fl.name
      · subst hkey
        rw [assocGet_assocSet_self] at hget'
        have hopt : tres.optimal = false := by
          have hr := Option.some.inj hget'
          rw [← hr] at hbio'
          exact hbio'
        rw [hopt] at gsc
        rcases tierDecision_capture_of_not_optimal _ phase fl.name lm _ _ _ _ _ _ _
          prev hget gsc with hsc0 | hemer
        · exact absurd hsc0 (by decide)
        · exact Or.inr hemer
      · rw [assocGet_assocSet_ne _ _ _ _ hkey] at hget'
        exact (record_bio_clash hget hget' hbio hbio').elim
    · rw [if_neg gsc] at hget'
      simp only [] at hget'
      exact (record_bio_clash hget hget' hbio hbio').elim

/-- Witness for the amended C3 at the concrete emergency replacement of the
counterexample run: the hypotheses hold and the conclusion's emergency
disjunct is delivered. -/
theorem optimal_capture_replacement_amended_witness :
    (strContains "shooting_elbow" "thumb_flick" = true ∧
      ({ c3StateB with frame_count := 11 } : CaptureState).immediate_thumb_capture_frame =
        some ({ c3StateB with frame_count := 11 } : CaptureState).frame_count) ∨
    ((⟨"shooting_elbow", Phase.shooting, 85, 1⟩ : FlawInput).severity > 80 ∧
      (⟨"shooting_elbow", Phase.shooting, 85, 1⟩ : FlawInput).priority ≤ 2 ∧
      emergencyAllowed "shooting_elbow" c3Landmarks2 Phase.shooting
        (({ c3StateB with frame_count := 11 } : CaptureState).frame_count -
          (assocGet ({ c3StateB with frame_count := 11 } : CaptureState).phase_transition_frames
            Phase.shooting).getD
            ({ c3StateB with frame_count := 11 } : CaptureState).frame_count) = true ∧
      (⟨10, 50, "optimal_first_elbow_peak_force_generation", true⟩ : CaptureRec).severity <
        (⟨"shooting_elbow", Phase.shooting, 85, 1⟩ : FlawInput).severity * 0.9) :=
  (optimal_capture_replacement_amended { c3StateB with frame_count := 11 } c3Landmarks2
      Phase.shooting ⟨"shooting_elbow", Phase.shooting, 85, 1⟩).2
    "shooting_shooting_elbow"
    ⟨10, 50, "optimal_first_elbow_peak_force_generation", true⟩
    ⟨11, 85, "emergency_high_severity_biomechanically_valid", false⟩
    (by decide) rfl (by rw [c3_step_eval]; decide) rfl

/-- Landmarks for the C4 counterexample: a shooting frame whose elbow angle
(100°) and wrist-shoulder delta (20) sit inside the optimal windows of both
the `shooting_alignment` oracle branch and the `guide_hand`/`wrist` oracle
branch at `frames_in_phase = 5`. -/
def c4Landmarks : TimingLandmarks := ⟨0, 0.5, 0, 0.3, 0, 0, 0, 0, 0, 100⟩

/-- The two priority-2 flaws of the C4 counterexample, firing on one frame. -/
def c4Flaws : List FlawInput :=
  [⟨"shooting_alignment", Phase.shooting, 50, 2⟩,
   ⟨"guide_hand_interference", Phase.shooting, 50, 2⟩]

/-- State after the first C4 call (no capture, phase transition recorded). -/
def c4StateA : CaptureState :=
  ⟨[], [Phase.shooting], [(Phase.shooting, 8)], [], none, none, false, 8⟩

/-- State after the second C4 call: both priority-2 flaws captured at the same
frame 13 through the optimal-timing tier. -/
def c4StateB : CaptureState :=
  ⟨[("shooting_shooting_alignment",
     ⟨13, 50, "optimal_first_alignment_early_shooting_setup", true⟩),
    ("shooting_guide_hand_interference",
     ⟨13, 50, "optimal_first_hand_active_control_phase", true⟩)],
   [Phase.shooting, Phase.shooting], [(Phase.shooting, 8)],
   ["shooting_shooting_alignment", "shooting_guide_hand_interference"],
   none, none, false, 13⟩

set_option maxHeartbeats 2000000 in
theorem c4_eval1 :
    capture_phase_specific_stills (freshCaptureState 8 false) (some c4Landmarks)
      [⟨"shooting_alignment", Phase.shooting, 10, 2⟩] Phase.shooting = c4StateA := by
  norm_num +decide [c4Landmarks, c4StateA, capture_phase_specific_stills, captureFlawStep,
    tierDecision, get_optimal_flaw_timing, emergencyAllowed, freshCaptureState,
    frameAlreadyUsed, phaseHasCapture, phaseString, assocGet, assocSet, strContains,
    strStarts, charSub, charPre, List.foldl]

set_option maxHeartbeats 2000000 in
theorem c4_eval2 :
    capture_phase_specific_stills { c4StateA with frame_count := 13 } (some c4Landmarks)
      c4Flaws Phase.shooting = c4StateB := by
  norm_num +decide [c4Landmarks, c4StateA, c4StateB, c4Flaws, capture_phase_specific_stills,
    captureFlawStep, tierDecision, get_optimal_flaw_timing, emergencyAllowed,
    frameAlreadyUsed, phaseHasCapture, phaseString, assocGet, assocSet, strContains,
    strStarts, charSub, charPre, List.foldl, abs_of_nonneg, abs_of_nonpos]

/-- C4 counterexample: after the two calls, the two **distinct** FlawKeys
`shooting_shooting_alignment` and `shooting_guide_hand_interference` hold the
same frame index 13 although both flaws have priority 2 (not top priority):
the optimal-timing tier performs no temporal de-duplication at all. -/
theorem temporal_dedup_counterexample :
    assocGet (capture_phase_specific_stills
        { (capture_phase_specific_stills (freshCaptureState 8 false) (some c4Landmarks)
            [⟨"shooting_alignment", Phase.shooting, 10, 2⟩] Phase.shooting)
          with frame_count := 13 } (some c4Landmarks) c4Flaws Phase.shooting).best_flaw_frames
      "shooting_shooting_alignment" =
      some ⟨13, 50, "optimal_first_alignment_early_shooting_setup", true⟩ ∧
    assocGet (capture_phase_specific_stills
        { (capture_phase_specific_stills (freshCaptureState 8 false) (some c4Landmarks)
            [⟨"shooting_alignment", Phase.shooting, 10, 2⟩] Phase.shooting)
          with frame_count := 13 } (some c4Landmarks) c4Flaws Phase.shooting).best_flaw_frames
      "shooting_guide_hand_interference" =
      some ⟨13, 50, "optimal_first_hand_active_control_phase", true⟩ ∧
    "shooting_shooting_alignment" ≠ "shooting_guide_hand_interference" ∧
    (c4Flaws.all fun f => decide (f.priority ≠ 1)) = true := by
  rw [c4_eval1, c4_eval2]
  refine ⟨by decide, by decide, by decide, by decide⟩

/-- The first-occurrence and emergency tiers both approve a capture only when
the current frame is unused or the priority is 1; with the oracle negative,
the thumb override inactive, and the phase already represented (so the
phase-coverage tier cannot fire), a non-top-priority capture implies the frame
was free. -/
theorem tierDecision_dedup (tbl : List (String × CaptureRec)) (phase : Phase)
    (name : String) (lm : TimingLandmarks) (cf fip : ℤ) (sev : ℚ) (prio : ℕ)
    (treason : String) (hprio : prio ≠ 1)
    (hph : phaseHasCapture tbl phase = true)
    (hcap : (tierDecision tbl phase name lm cf fip sev prio false treason false "").1 = true) :
    frameAlreadyUsed tbl cf = false := by
  simp only [tierDecision] at hcap
  split_ifs at hcap
  all_goals
    first
      | exact False.elim ‹False›
      | exact absurd ‹false = true› (by decide)
      | exact absurd hcap (by decide)
      | exact absurd (hph.symm.trans
          (‹phaseHasCapture tbl phase = false ∧ sev > 35›).1) (by decide)
      | exact (‹frameAlreadyUsed tbl cf = false ∨ prio = 1›).resolve_right hprio

/-- C4 amended: temporal de-duplication is enforced by the first-occurrence
tier and the emergency tier, but **not** by the optimal-timing tier or the
phase-coverage tier.  Precisely: when a per-flaw step captures with priority ≠
1, the oracle judged the timing non-optimal, the immediate thumb-flick
override is inactive, and the current phase already has a captured key (which
rules the phase-coverage tier out), then no record in the table already held
the current frame index.  The unqualified claim fails
(`temporal_dedup_counterexample`): two priority-2 flaws captured by the
optimal-timing tier share one frame. -/
theorem temporal_dedup_amended (st : CaptureState) (lm : TimingLandmarks)
    (phase : Phase) (fl : FlawInput)
    (hcap : (captureFlawStep st lm phase fl).captured = true)
    (hprio : fl.priority ≠ 1)
    (hopt : (get_optimal_flaw_timing fl.name (some lm) phase
      (st.frame_count - (assocGet st.phase_transition_frames phase).getD st.frame_count)
      st.thumb_tracker).optimal = false)
    (hth : (strContains fl.name "thumb_flick" &&
        (match st.immediate_thumb_capture_frame with
         | some n => decide (n = st.frame_count)
         | none => false)) = false)
    (hph : phaseHasCapture st.best_flaw_frames phase = true) :
    frameAlreadyUsed st.best_flaw_frames st.frame_count = false := by
  by_cases g1 : fl.phase ≠ phase
  · rw [captureFlawStep, if_pos g1] at hcap
    simp at hcap
  rw [captureFlawStep, if_neg g1] at hcap
  by_cases g2 : (strContains fl.name "preparation" && st.release_detected) = true
  · rw [if_pos g2] at hcap
    simp at hcap
  rw [if_neg g2] at hcap
  by_cases g3 : (strContains fl.name "shooting_alignment" && st.release_detected) = true
  · rw [if_pos g3] at hcap
    simp at hcap
  rw [if_neg g3] at hcap
  simp only [] at hcap
  rw [hth] at hcap
  simp only [Bool.false_eq_true, if_false] at hcap
  set fip := st.frame_count -
    (assocGet st.phase_transition_frames phase).getD st.frame_count with hfip
  set tres := get_optimal_flaw_timing fl.name (some lm) phase fip st.thumb_tracker with htres
  rw [hopt] at hcap
  by_cases gsc : (tierDecision st.best_flaw_frames phase fl.name lm st.frame_count fip
      fl.severity fl.priority false tres.reason false "").1 = true
  · exact tierDecision_dedup _ phase fl.name lm _ _ _ _ _ hprio hph gsc
  · rw [if_neg gsc] at hcap
    simp at hcap

/-- Landmarks for the C4 witness (all coordinates zero: the oracle's default
branch applies to `shooting_power_generation`). -/
def c4WitLm : TimingLandmarks := ⟨0, 0, 0, 0, 0, 0, 0, 0, 0, 0⟩

/-- Witness state: one shooting-phase record already captured at frame 9; the
current frame is 10. -/
def c4WitState : CaptureState :=
  ⟨[("shooting_shooting_elbow", ⟨9, 50, "optimal_first_elbow_peak_force_generation", true⟩)],
   [Phase.shooting], [(Phase.shooting, 8)], [], none, none, false, 10⟩

set_option maxHeartbeats 2000000 in
theorem c4_wit_step_eval :
    captureFlawStep c4WitState c4WitLm Phase.shooting
      ⟨"shooting_power_generation", Phase.shooting, 50, 3⟩ =
    ⟨⟨[("shooting_shooting_elbow",
        ⟨9, 50, "optimal_first_elbow_peak_force_generation", true⟩),
       ("shooting_shooting_power_generation",
        ⟨10, 50, "first_occurrence_fallback", false⟩)],
      [Phase.shooting], [(Phase.shooting, 8)],
      ["shooting_shooting_power_generation"], none, none, false, 10⟩,
      true, "first_occurrence_fallback"⟩ := by
  norm_num +decide [c4WitLm, c4WitState, captureFlawStep, tierDecision,
    get_optimal_flaw_timing, emergencyAllowed, frameAlreadyUsed, phaseHasCapture,
    phaseString, assocGet, assocSet, strContains, strStarts, charSub, charPre]

set_option maxHeartbeats 1000000 in
theorem c4_wit_oracle_eval :
    get_optimal_flaw_timing "shooting_power_generation" (some c4WitLm) Phase.shooting 2 none =
      ⟨false, "suboptimal_biomechanical_timing", none⟩ := by
  norm_num +decide [c4WitLm, get_optimal_flaw_timing, strContains, charSub, charPre]

/-- Witness for the amended C4: a concrete first-occurrence capture at frame
10 with priority 3; the theorem yields that no stored record held frame 10. -/
theorem temporal_dedup_amended_witness :
    frameAlreadyUsed c4WitState.best_flaw_frames c4WitState.frame_count = false :=
  temporal_dedup_amended c4WitState c4WitLm Phase.shooting
    ⟨"shooting_power_generation", Phase.shooting, 50, 3⟩
    (by rw [c4_wit_step_eval])
    (by decide)
    (by rw [show c4WitState.frame_count -
        (assocGet c4WitState.phase_transition_frames Phase.shooting).getD
          c4WitState.frame_count = 2 from by decide,
      show c4WitState.thumb_tracker = none from rfl, c4_wit_oracle_eval])
    (by decide)
    (by decide)

/-- The flaw names produced by `analyze_phase_specific_flaws` (the keys of the
four per-phase flaw dictionaries in the source, plus the wrist-snap, thumb-flick,
smoothness and guide-hand flaws added by the dedicated analyzers). -/
def catalogFlawNames : List String :=
  ["preparation_balance", "preparation_stance", "preparation_knee_bend",
   "preparation_shoulder_alignment", "shooting_elbow", "shooting_alignment",
   "shooting_power_generation", "shooting_plane_deviation", "guide_hand_interference",
   "release_height", "release_follow_through", "release_extension",
   "wrist_snap_mechanics", "thumb_flick_technique", "follow_through_balance",
   "wrist_snap_timing", "follow_through_angle", "landing_balance",
   "shot_smoothness_tempo"]

/-- At frame zero of the release phase the timing oracle reports the three
follow-through catalog flaws as non-optimal: their window is
`3 <= frames_in_phase <= 8`. -/
theorem oracle_ft_at_zero (n : String) (lm : TimingLandmarks) (tr : Option ThumbOracleState)
    (hn : n = "release_follow_through" ∨ n = "follow_through_balance" ∨
      n = "follow_through_angle") :
    get_optimal_flaw_timing n (some lm) Phase.release 0 tr =
      ⟨false, "follow_through_wrist_snap", tr⟩ := by
  rcases hn with rfl | rfl | rfl <;>
    norm_num +decide [get_optimal_flaw_timing, strContains, charSub, charPre]

/-- The emergency sub-window for follow-through flaws (`3 <= fip <= 8`) excludes
frame zero of the release phase. -/
theorem emergencyAllowed_ft_at_zero (n : String) (lm : TimingLandmarks)
    (hn : n = "release_follow_through" ∨ n = "follow_through_balance" ∨
      n = "follow_through_angle") :
    emergencyAllowed n lm Phase.release 0 = false := by
  rcases hn with rfl | rfl | rfl <;>
    norm_num +decide [emergencyAllowed, strContains, charSub, charPre]

/-- A non-optimal follow-through-named flaw that the tier chain still captures
at frame zero of the release phase (emergency window closed) can only have gone
through the phase-coverage tier: the phase had no capture yet and severity
exceeds 35. -/
theorem tierDecision_ft_zero (tbl : List (String × CaptureRec)) (name : String)
    (lm : TimingLandmarks) (cf : ℤ) (sev : ℚ) (prio : ℕ) (treason : String)
    (hft : (strContains name "follow" || strContains name "through") = true)
    (hea : emergencyAllowed name lm Phase.release 0 = false)
    (hcap : (tierDecision tbl Phase.release name lm cf 0 sev prio false treason
      false "").1 = true) :
    phaseHasCapture tbl Phase.release = false ∧ sev > 35 := by
  simp +decide only [tierDecision, hft, hea, Bool.false_and, Bool.true_and] at hcap
  split_ifs at hcap
  all_goals
    first
      | exact False.elim ‹False›
      | exact False.elim hcap
      | exact absurd hcap (by decide)
      | exact ‹phaseHasCapture tbl Phase.release = false ∧ sev > 35›

/-- Landmarks for the C7 scenario (all coordinates zero; the follow-through
oracle branch and the phase-coverage tier ignore them). -/
def c7Lm : TimingLandmarks := ⟨0, 0, 0, 0, 0, 0, 0, 0, 0, 0⟩

set_option maxHeartbeats 2000000 in
/-- C7 counterexample: a fresh analyzer at frame 12 receives the
follow-through-named flaw `release_follow_through` (severity 40, priority 2) on
the first frame of the release phase.  The call records the release transition
at frame 12, so `frames_in_phase = 0`, yet the flaw IS captured at that exact
frame through the phase-coverage tier (`phase_coverage_requirement`): the
follow-through restriction lives only inside the second (first-occurrence)
tier, which severity 40 <= 45 never reaches, so the reserved release-moment
frame is not protected from follow-through flaws. -/
theorem follow_through_release_moment_counterexample :
    capture_phase_specific_stills (freshCaptureState 12 false) (some c7Lm)
      [⟨"release_follow_through", Phase.release, 40, 2⟩] Phase.release =
    ⟨[("release_release_follow_through", ⟨12, 40, "phase_coverage_requirement", false⟩)],
     [Phase.release], [(Phase.release, 12)],
     ["release_release_follow_through"], none, none, false, 12⟩ := by
  norm_num +decide [c7Lm, capture_phase_specific_stills, captureFlawStep,
    tierDecision, get_optimal_flaw_timing, emergencyAllowed, freshCaptureState,
    frameAlreadyUsed, phaseHasCapture, phaseString, assocGet, assocSet, strContains,
    strStarts, charSub, charPre, List.foldl]

/-- C7 amended: for a catalog flaw whose name marks it as follow-through
(contains "follow" or "through"), a capture at frame zero of the release phase
is possible ONLY through the phase-coverage tier: the release phase had no
captured key yet and the severity exceeds 35.  The first-occurrence tier does
block such flaws (`follow_through_timing_restriction`), and the oracle and the
emergency window also exclude frame zero, so the phase-coverage tier is the
single leak; the unqualified reservation of the claim fails
(`follow_through_release_moment_counterexample`). -/
theorem follow_through_release_moment_amended (st : CaptureState)
    (lm : TimingLandmarks) (fl : FlawInput)
    (hname : fl.name ∈ catalogFlawNames)
    (hft : (strContains fl.name "follow" || strContains fl.name "through") = true)
    (hfip : (assocGet st.phase_transition_frames Phase.release).getD st.frame_count =
      st.frame_count)
    (hcap : (captureFlawStep st lm Phase.release fl).captured = true) :
    phaseHasCapture st.best_flaw_frames Phase.release = false ∧ fl.severity > 35 := by
  obtain ⟨name, fphase, sev, prio⟩ := fl
  simp only [catalogFlawNames, List.mem_cons, List.not_mem_nil, or_false] at hname
  have hn3 : name = "release_follow_through" ∨ name = "follow_through_balance" ∨
      name = "follow_through_angle" := by
    rcases hname with h | h | h | h | h | h | h | h | h | h | h | h | h | h | h | h | h | h | h <;>
      subst h <;>
      first
        | exact Or.inl rfl
        | exact Or.inr (Or.inl rfl)
        | exact Or.inr (Or.inr rfl)
        | exact absurd hft (by simp +decide)
  by_cases g1 : fphase ≠ Phase.release
  · simp only [captureFlawStep] at hcap
    rw [if_pos g1] at hcap
    simp at hcap
  have hth : (strContains name "thumb_flick" &&
      (match st.immediate_thumb_capture_frame with
       | some n => decide (n = st.frame_count)
       | none => false)) = false := by
    have h1 : strContains name "thumb_flick" = false := by
      rcases hn3 with rfl | rfl | rfl <;> decide
    rw [h1, Bool.false_and]
  have hg2 : (strContains name "preparation" && st.release_detected) = false := by
    have h1 : strContains name "preparation" = false := by
      rcases hn3 with rfl | rfl | rfl <;> decide
    rw [h1, Bool.false_and]
  have hg3 : (strContains name "shooting_alignment" && st.release_detected) = false := by
    have h1 : strContains name "shooting_alignment" = false := by
      rcases hn3 with rfl | rfl | rfl <;> decide
    rw [h1, Bool.false_and]
  simp only [captureFlawStep] at hcap
  rw [if_neg g1, if_neg (by rw [hg2]; exact Bool.false_ne_true),
    if_neg (by rw [hg3]; exact Bool.false_ne_true)] at hcap
  rw [hfip, sub_self] at hcap
  rw [oracle_ft_at_zero name lm st.thumb_tracker hn3] at hcap
  simp only [] at hcap
  rw [hth] at hcap
  rw [if_neg Bool.false_ne_true] at hcap
  by_cases gsc : (tierDecision st.best_flaw_frames Phase.release name lm st.frame_count 0
      sev prio false "follow_through_wrist_snap" false "").1 = true
  · exact tierDecision_ft_zero st.best_flaw_frames name lm st.frame_count sev prio
      "follow_through_wrist_snap" hft (emergencyAllowed_ft_at_zero name lm hn3) gsc
  · rw [if_neg gsc] at hcap
    simp at hcap

/-- Witness state for the amended C7: empty capture table, release transition
recorded at the current frame 12 (so `frames_in_phase = 0`). -/
def c7WitState : CaptureState :=
  ⟨[], [Phase.release], [(Phase.release, 12)], [], none, none, false, 12⟩

set_option maxHeartbeats 2000000 in
theorem c7_wit_step_eval :
    captureFlawStep c7WitState c7Lm Phase.release
      ⟨"release_follow_through", Phase.release, 40, 2⟩ =
    ⟨⟨[("release_release_follow_through", ⟨12, 40, "phase_coverage_requirement", false⟩)],
      [Phase.release], [(Phase.release, 12)],
      ["release_release_follow_through"], none, none, false, 12⟩,
      true, "phase_coverage_requirement"⟩ := by
  norm_num +decide [c7Lm, c7WitState, captureFlawStep, tierDecision,
    get_optimal_flaw_timing, emergencyAllowed, frameAlreadyUsed, phaseHasCapture,
    phaseString, assocGet, assocSet, strContains, strStarts, charSub, charPre]

/-- Witness for the amended C7: the concrete phase-coverage capture of
`release_follow_through` at frame zero of release satisfies the conclusion. -/
theorem follow_through_release_moment_amended_witness :
    phaseHasCapture c7WitState.best_flaw_frames Phase.release = false ∧
    (FlawInput.mk "release_follow_through" Phase.release 40 2).severity > 35 :=
  follow_through_release_moment_amended c7WitState c7Lm
    ⟨"release_follow_through", Phase.release, 40, 2⟩
    (by decide) (by decide) (by decide) (by rw [c7_wit_step_eval])

/-- C6: for the catalog flaw whose name contains both "release" and "height"
(only `release_height` does), the timing oracle returns true only when the
current phase is `release` and `frames_in_phase` is exactly 0; whenever
`frames_in_phase > 0` or the phase differs from `release`, it returns false.
The elbow-extension and wrist-elevation conjuncts may make it false even at
the exact moment, which the claim's "only if" direction permits. -/
theorem release_height_exact_moment (name : String) (lm : TimingLandmarks)
    (phase : Phase) (fip : ℤ) (tr : Option ThumbOracleState)
    (hmem : name ∈ catalogFlawNames)
    (hrel : strContains name "release" = true)
    (hht : strContains name "height" = true) :
    ((get_optimal_flaw_timing name (some lm) phase fip tr).optimal = true →
      phase = Phase.release ∧ fip = 0) ∧
    (fip > 0 ∨ phase ≠ Phase.release →
      (get_optimal_flaw_timing name (some lm) phase fip tr).optimal = false) := by
  have hname : name = "release_height" := by
    simp only [catalogFlawNames, List.mem_cons, List.not_mem_nil, or_false] at hmem
    rcases hmem with h|h|h|h|h|h|h|h|h|h|h|h|h|h|h|h|h|h|h <;> subst h <;>
      first
        | rfl
        | exact absurd hrel (by decide)
        | exact absurd hht (by decide)
  subst hname
  have hev : (get_optimal_flaw_timing "release_height" (some lm) phase fip tr).optimal =
      (decide (phase = Phase.release) && decide (fip = 0) &&
       decide (155 ≤ lm.elbowAngle) &&
       decide (18 ≤ (lm.rShoulderY - lm.rWristY) * 100)) := rfl
  constructor
  · intro h
    rw [hev] at h
    simp only [Bool.and_eq_true, decide_eq_true_eq] at h
    exact ⟨h.1.1.1, h.1.1.2⟩
  · intro hc
    rw [hev]
    rcases hc with hf | hp
    · have h0 : decide (fip = 0) = false := decide_eq_false (by omega)
      rw [h0, Bool.and_false, Bool.false_and, Bool.false_and]
    · have h0 : decide (phase = Phase.release) = false := decide_eq_false hp
      rw [h0, Bool.false_and, Bool.false_and, Bool.false_and]

/-- Witness for C6 at `release_height`, shooting phase, frame 1 in phase. -/
theorem release_height_exact_moment_witness :
    (((get_optimal_flaw_timing "release_height"
        (some ⟨0, 0, 0, 0, 0, 0, 0, 0, 0, 0⟩) Phase.shooting 1 none).optimal = true →
      Phase.shooting = Phase.release ∧ (1 : ℤ) = 0) ∧
     ((1 : ℤ) > 0 ∨ Phase.shooting ≠ Phase.release →
      (get_optimal_flaw_timing "release_height"
        (some ⟨0, 0, 0, 0, 0, 0, 0, 0, 0, 0⟩) Phase.shooting 1 none).optimal = false)) :=
  release_height_exact_moment "release_height" ⟨0, 0, 0, 0, 0, 0, 0, 0, 0, 0⟩
    Phase.shooting 1 none (by decide) (by decide) (by decide)

/-- A 2-D pose landmark as read by `calculate_angle` (only `.x` and `.y` are
used). -/
structure LandmarkPoint where
  x : ℝ
  y : ℝ

/-- Shallow embedding of `ShotAnalyzer.calculate_angle`.  NumPy float
semantics: a zero denominator arises exactly when one of the two vectors is
zero, in which case the dot product is also zero and `0.0/0.0` silently
evaluates to NaN (a `RuntimeWarning`, not an exception, so the `except`
fallback does not run); NaN then propagates through `np.clip`, `np.arccos`
and `np.degrees`.  The NaN outcome is modeled as `none`; `np.clip(c,-1,1)` is
`max (-1) (min 1 c)`. -/
noncomputable def calculate_angle (p1 p2 p3 : LandmarkPoint) : Option ℝ :=
  let ba := (p1.x - p2.x, p1.y - p2.y)
  let bc := (p3.x - p2.x, p3.y - p2.y)
  let dot := ba.1 * bc.1 + ba.2 * bc.2
  let denom := Real.sqrt (ba.1 ^ 2 + ba.2 ^ 2) * Real.sqrt (bc.1 ^ 2 + bc.2 ^ 2)
  if denom = 0 then none
  else
    let cosine_angle := max (-1) (min 1 (dot / denom))
    some (Real.arccos cosine_angle * 180 / Real.pi)

/-- C8: on the degenerate input with a zero-length vector between the vertex
and the first endpoint, `calculate_angle` does NOT return 0: the division
`0.0/0.0` yields NaN without raising, the `except` branch never runs, and the
call returns a non-numeric result (modeled `none`). -/
theorem calculate_angle_degenerate_nan :
    calculate_angle ⟨0, 0⟩ ⟨0, 0⟩ ⟨1, 0⟩ = none := by
  norm_num [calculate_angle, Real.sqrt_zero]

/-- The eight numeric fields of the `ShotMetrics` dataclass (the `timestamp`
field carries no analysis logic and is omitted). -/
structure ShotMetrics where
  release_angle : ℚ
  release_height : ℚ
  follow_through_angle : ℚ
  elbow_alignment : ℚ
  knee_bend : ℚ
  balance_score : ℚ
  consistency_score : ℚ
  shooting_form_score : ℚ
  deriving DecidableEq, Repr

/-- One element of `self.shot_sequence`: its `'phase'` entry and its
`'metrics'` dict (every stored metric value is numeric in the embedding, which
is what the `isinstance` filter of the averaging branch checks). -/
structure SeqFrame where
  phase : Phase
  metrics : List (String × ℚ)
  deriving DecidableEq, Repr

/-- The `numeric_keys` list of `get_shot_summary`'s averaging branch. -/
def numeric_keys : List String :=
  ["release_angle", "release_height", "follow_through_angle",
   "elbow_alignment", "knee_bend", "balance_score",
   "consistency_score", "shooting_form_score", "release_angle_score",
   "knee_bend_score", "relative_release_height"]

/-- Shallow embedding of `ShotAnalyzer.get_shot_summary`: empty sequence →
all-zero metrics; otherwise the first release-phase frame's metrics, or the
per-key averages (`np.mean` = sum / length) over the frames holding the key,
with every field read through `.get(key, 0)`. -/
def get_shot_summary (shot_sequence : List SeqFrame) : ShotMetrics :=
  if shot_sequence = [] then ⟨0, 0, 0, 0, 0, 0, 0, 0⟩
  else
    let release_frames := shot_sequence.filter (fun f => f.phase = Phase.release)
    let release_metrics : List (String × ℚ) :=
      match release_frames with
      | f :: _ => f.metrics
      | [] =>
        let all_metrics := shot_sequence.map (fun f => f.metrics)
        numeric_keys.foldl (fun acc key =>
          if (assocGet (all_metrics.headD []) key).isSome then
            let values := all_metrics.filterMap (fun m => assocGet m key)
            if values ≠ [] then assocSet acc key (values.sum / values.length)
            else assocSet acc key 0
          else acc) []
    let g := fun k => (assocGet release_metrics k).getD 0
    ⟨g "release_angle", g "release_height", g "follow_through_angle",
     g "elbow_alignment", g "knee_bend", g "balance_score",
     g "consistency_score", g "shooting_form_score"⟩

/-- C10: with no recorded frames, `get_shot_summary` returns a `ShotMetrics`
whose eight numeric fields are all exactly 0, without failing. -/
theorem get_shot_summary_empty_zero :
    get_shot_summary [] = ⟨0, 0, 0, 0, 0, 0, 0, 0⟩ := rfl

/-- Mapping over adjacent pairs of a list, as the Python loops
`for i in range(1, len(xs)): f(xs[i-1], xs[i])` produce. -/
def adjacentMap {α β : Type} (f : α → α → β) : List α → List β
  | a :: b :: r => f a b :: adjacentMap f (b :: r)
  | _ => []

/-- `np.mean` of a list of floats. -/
noncomputable def listMean (xs : List ℝ) : ℝ := xs.sum / xs.length

/-- `np.var` (population variance) of a list of floats. -/
noncomputable def listVar (xs : List ℝ) : ℝ :=
  ((xs.map (fun x => (x - listMean xs) ^ 2)).sum) / xs.length

/-- Python `max(xs)` for the nonempty lists it is applied to (0 on `[]`,
which never occurs behind the guards in the source). -/
def pythonMax : List ℝ → ℝ
  | [] => 0
  | x :: r => r.foldl max x

/-- `np.linalg.norm` of the difference of two 2-D points. -/
noncomputable def pairDist (p q : ℝ × ℝ) : ℝ :=
  Real.sqrt ((q.1 - p.1) ^ 2 + (q.2 - p.2) ^ 2)

/-- The six-component motion vector built by `analyze_shot_smoothness_tempo`. -/
structure MVec where
  c1 : ℝ
  c2 : ℝ
  c3 : ℝ
  c4 : ℝ
  c5 : ℝ
  c6 : ℝ

/-- `np.linalg.norm` of a motion vector. -/
noncomputable def mvNorm (v : MVec) : ℝ :=
  Real.sqrt (v.c1 ^ 2 + v.c2 ^ 2 + v.c3 ^ 2 + v.c4 ^ 2 + v.c5 ^ 2 + v.c6 ^ 2)

/-- Componentwise difference of motion vectors. -/
def mvSub (a b : MVec) : MVec :=
  ⟨a.c1 - b.c1, a.c2 - b.c2, a.c3 - b.c3, a.c4 - b.c4, a.c5 - b.c5, a.c6 - b.c6⟩

/-- The pose landmarks read by `analyze_phase_specific_flaws` and its helper
analyzers. -/
structure FrameLandmarks where
  lShoulder : LandmarkPoint
  rShoulder : LandmarkPoint
  lElbow : LandmarkPoint
  rElbow : LandmarkPoint
  lWrist : LandmarkPoint
  rWrist : LandmarkPoint
  lHip : LandmarkPoint
  rHip : LandmarkPoint
  lKnee : LandmarkPoint
  rKnee : LandmarkPoint
  lAnkle : LandmarkPoint
  rAnkle : LandmarkPoint
  nose : LandmarkPoint

/-- Shallow embedding of `ShotAnalyzer.calculate_distance`. -/
noncomputable def calculate_distance (p1 p2 : LandmarkPoint) : ℝ :=
  Real.sqrt ((p1.x - p2.x) ^ 2 + (p1.y - p2.y) ^ 2)

/-- Shallow embedding of `ShotAnalyzer.analyze_wrist_snap`.  The snap angle is
NaN (`none`) exactly when the elbow-to-wrist vector is zero (`0.0/0.0`); the
constant finger direction `(0, -0.1)` has norm `0.1`.  Returns the
`(snap_angle, snap_speed)` pair and the stored `previous_wrist_position`. -/
noncomputable def analyze_wrist_snap (lm : FrameLandmarks)
    (previous_wrist_position : Option (ℝ × ℝ)) : (Option ℝ × ℝ) × (ℝ × ℝ) :=
  let etw : ℝ × ℝ := (lm.rWrist.x - lm.rElbow.x, lm.rWrist.y - lm.rElbow.y)
  let fd : ℝ × ℝ := (0, -0.1)
  let denom := Real.sqrt (etw.1 ^ 2 + etw.2 ^ 2) * Real.sqrt (fd.1 ^ 2 + fd.2 ^ 2)
  let snap_angle : Option ℝ :=
    if denom = 0 then none
    else some (Real.arccos (max (-1) (min 1 ((etw.1 * fd.1 + etw.2 * fd.2) / denom)))
      * 180 / Real.pi)
  let snap_speed : ℝ :=
    match previous_wrist_position with
    | some p => pairDist p (lm.rWrist.x, lm.rWrist.y) * 30
    | none => 3.0
  ((snap_angle, snap_speed), (lm.rWrist.x, lm.rWrist.y))

/-- The full `thumb_flick_flaw_tracker` dict of `analyze_thumb_flick` (the
`lateral_movements` entry is initialized but never read or written afterwards
and is omitted).  `ThumbOracleState` above is the projection of this state read
by the timing oracle. -/
structure ThumbFlickTracker where
  guide_hand_positions : List (ℝ × ℝ)
  guide_hand_angles : List (Option ℝ)
  post_release_activity : List ℝ
  thumb_rotation_detected : Bool
  capture_frame_ready : Bool
  frames_since_release : ℕ

/-- Shallow embedding of `ShotAnalyzer.analyze_thumb_flick`.  The function
reads `getattr(self, 'current_phase', 'preparation')`; `current_phase` is never
assigned anywhere on `ShotAnalyzer`, so the default `"preparation"` always
applies and every detection window guarded by
`current_phase in ['release', 'follow_through']` is structurally dead; the
guards are kept as written.  Returns the `(flaw_score, interference)` pair, the
updated tracker and the possibly-set `immediate_thumb_capture_frame`. -/
noncomputable def analyze_thumb_flick (lm : FrameLandmarks)
    (tr0 : Option ThumbFlickTracker) (frame_count : ℤ) (itcf0 : Option ℤ) :
    (ℝ × ℝ) × ThumbFlickTracker × Option ℤ :=
  let tracker := tr0.getD ⟨[], [], [], false, false, 0⟩
  let guide_hand_pos : ℝ × ℝ := (lm.lWrist.x, lm.lWrist.y)
  let current_phase := "preparation"
  let guide_hand_angle := calculate_angle lm.lShoulder lm.lElbow lm.lWrist
  let positions0 := tracker.guide_hand_positions ++ [guide_hand_pos]
  let angles0 := tracker.guide_hand_angles ++ [guide_hand_angle]
  let positions := if positions0.length > 8 then positions0.tail else positions0
  let angles := if positions0.length > 8 then angles0.tail else angles0
  let inWindow := current_phase = "release" ∨ current_phase = "follow_through"
  let fsr : ℕ := if inWindow then tracker.frames_since_release + 1 else 0
  let trd0 : Bool := if inWindow then tracker.thumb_rotation_detected else false
  let cfr0 : Bool := if inWindow then tracker.capture_frame_ready else false
  let rotState :=
    if inWindow ∧ angles.length ≥ 2 then
      let recent_angles := angles.drop (angles.length - 2)
      let angle_change : Option ℝ :=
        match recent_angles.getLast?, recent_angles.head? with
        | some (some a1), some (some a0) => some (a1 - a0)
        | _, _ => none
      match angle_change with
      | some ac =>
        if ac < -3 then
          let sev := min (|ac| * 10) 100
          if trd0 = false then (true, sev, true, true, some frame_count)
          else (true, sev, trd0, cfr0, itcf0)
        else (false, 0, trd0, cfr0, itcf0)
      | none => (false, 0, trd0, cfr0, itcf0)
    else (false, (0 : ℝ), trd0, cfr0, itcf0)
  let rotDetected := rotState.1
  let latState :=
    if positions.length ≥ 2 then
      let recent_positions := positions.drop (positions.length - 2)
      let lateral_movement :=
        |(recent_positions.getLast?.getD (0, 0)).1 - (recent_positions.head?.getD (0, 0)).1|
      if lateral_movement > 0.008 ∧ inWindow then
        let lsev := min (lateral_movement * 4000) 100
        if rotState.2.2.2.1 = false then
          (true, max rotState.2.1 lsev, true, some frame_count)
        else (true, max rotState.2.1 lsev, rotState.2.2.2.1, rotState.2.2.2.2)
      else (rotDetected, rotState.2.1, rotState.2.2.2.1, rotState.2.2.2.2)
    else (rotDetected, rotState.2.1, rotState.2.2.2.1, rotState.2.2.2.2)
  let detected := latState.1
  let thumb_rotation_severity := latState.2.1
  let lateral_flaw_severity :=
    if positions.length ≥ 4 then
      let recent_positions := positions.drop (positions.length - 4)
      let lateral_changes := adjacentMap (fun p c => |c.1 - p.1|) recent_positions
      if lateral_changes ≠ [] then min (listMean lateral_changes * 1500) 80 else 0
    else 0
  let intState :=
    if inWindow ∧ positions.length ≥ 3 then
      let recent_pos := positions.drop (positions.length - 3)
      let prm := pairDist (recent_pos.head?.getD (0, 0)) (recent_pos.getLast?.getD (0, 0))
      let isev := min (prm * 600) 80
      (isev, tracker.post_release_activity ++ [isev])
    else ((0 : ℝ), tracker.post_release_activity)
  let interference_severity := intState.1
  let combined0 :=
    if detected then
      thumb_rotation_severity * 0.6 + lateral_flaw_severity * 0.25 +
        interference_severity * 0.15
    else
      lateral_flaw_severity * 0.6 + interference_severity * 0.4
  let fbState :=
    if ¬ detected ∧ current_phase = "follow_through" ∧ positions.length ≥ 2 then
      let recent_pos := positions.drop (positions.length - 2)
      let any_movement := pairDist (recent_pos.head?.getD (0, 0)) (recent_pos.getLast?.getD (0, 0))
      if any_movement > 0.005 then
        if latState.2.2.1 = false then
          (max combined0 (any_movement * 3000), true, some frame_count)
        else (max combined0 (any_movement * 3000), latState.2.2.1, latState.2.2.2)
      else (combined0, latState.2.2.1, latState.2.2.2)
    else (combined0, latState.2.2.1, latState.2.2.2)
  let combined := fbState.1
  let score0 := min (combined / 100) 1.0
  let thumb_flick_flaw_score :=
    if current_phase = "release" ∨ current_phase = "follow_through" then max score0 0.1
    else score0
  let recent_interference :=
    if intState.2 ≠ [] then intState.2.drop (intState.2.length - 3) else [0]
  let guide_hand_interference := max (listMean recent_interference / 100) 0.05
  ((thumb_flick_flaw_score, guide_hand_interference),
   ⟨positions, angles, intState.2, rotState.2.2.1, fbState.2.1, fsr⟩, fbState.2.2)

/-- The `guide_hand_history` / `guide_hand_velocity_history` attributes of
`analyze_guide_hand_mechanics`. -/
structure GuideHandState where
  guide_hand_history : List (ℝ × ℝ)
  guide_hand_velocity_history : List ℝ

open Classical in
/-- The placement-score computation of `analyze_guide_hand_mechanics`:
`np.arccos` of the clipped normalized dot product of the shooting and guide
directions, turned into `max(0, 1 - |π/2 - angle| / (π/2))`, or the neutral
`0.5` when either direction is the zero vector. -/
noncomputable def guidePlacementScore (lm : FrameLandmarks) : ℝ :=
  let sd : ℝ × ℝ := (lm.rWrist.x - lm.rShoulder.x, lm.rWrist.y - lm.rShoulder.y)
  let gd : ℝ × ℝ := (lm.lWrist.x - lm.rWrist.x, lm.lWrist.y - lm.rWrist.y)
  if Real.sqrt (sd.1 ^ 2 + sd.2 ^ 2) > 0 ∧ Real.sqrt (gd.1 ^ 2 + gd.2 ^ 2) > 0 then
    let dot := sd.1 * gd.1 + sd.2 * gd.2
    let angle_between := Real.arccos (max (-1) (min 1
      (dot / (Real.sqrt (sd.1 ^ 2 + sd.2 ^ 2) * Real.sqrt (gd.1 ^ 2 + gd.2 ^ 2)))))
    let perpendicular_score := |Real.pi / 2 - angle_between| / (Real.pi / 2)
    max 0 (1 - perpendicular_score)
  else 0.5

open Classical in
/-- The interference-score computation of `analyze_guide_hand_mechanics`:
velocity, spike and proximity components summed and clipped to `[0, 1]`, plus
the updated `guide_hand_velocity_history` window. -/
noncomputable def guideInterferencePair (gts : ℝ) (hist : List (ℝ × ℝ))
    (vh0 : List ℝ) : ℝ × List ℝ :=
  if hist.length ≥ 3 then
    let velocities := adjacentMap (fun p c => pairDist p c) hist
    let vh1 := vh0 ++ velocities
    let vh := if vh1.length > 10 then vh1.drop (vh1.length - 10) else vh1
    if velocities ≠ [] then
      let avg_velocity := listMean velocities
      let max_velocity := pythonMax velocities
      let velocity_interference := min (avg_velocity * 50) 0.4
      let spike_interference :=
        if max_velocity > avg_velocity * 2 then min (max_velocity * 30) 0.3 else 0
      let proximity_interference :=
        if gts < 0.08 then (0.08 - gts) * 5 else 0
      (min (velocity_interference + spike_interference + proximity_interference) 1.0, vh)
    else (0, vh)
  else (0, vh0)

open Classical in
/-- Shallow embedding of `ShotAnalyzer.analyze_guide_hand_mechanics`.
`inner_phase` is the value returned by the `detect_shooting_phase` call the
source makes at the end of the function (that classifier is embedded separately
as `detect_shooting_phase`); it only decides the post-release `+0.2`
interference bump. -/
noncomputable def analyze_guide_hand_mechanics (lm : FrameLandmarks)
    (g0 : Option GuideHandState) (inner_phase : Phase) :
    (ℝ × ℝ × Bool) × GuideHandState :=
  let g := g0.getD ⟨[], []⟩
  let guide_to_shooting_distance := calculate_distance lm.lWrist lm.rWrist
  let placement_score := guidePlacementScore lm
  let hist0 := g.guide_hand_history ++ [(lm.lWrist.x, lm.lWrist.y)]
  let hist := if hist0.length > 5 then hist0.tail else hist0
  let intState := guideInterferencePair guide_to_shooting_distance hist
    g.guide_hand_velocity_history
  let velHist := intState.2
  let early_release : Bool :=
    if velHist.length ≥ 3 then
      if (velHist.drop (velHist.length - 3)).all (fun v => decide (v > 0.02)) then false
      else true
    else true
  let interference_score :=
    if (inner_phase = Phase.release ∨ inner_phase = Phase.follow_through) ∧
        early_release = false then
      intState.1 + 0.2
    else intState.1
  ((interference_score, placement_score, early_release), ⟨hist, velHist⟩)

/-- The `motion_history` / `tempo_markers` / `phase_frame_counts` attributes
of `analyze_shot_smoothness_tempo` (`velocity_history` is initialized but never
used). -/
structure SmoothnessState where
  motion_history : List MVec
  tempo_markers : List (Phase × List ℤ)
  phase_frame_counts : List (Phase × ℕ)

/-- Shallow embedding of `ShotAnalyzer.analyze_shot_smoothness_tempo`:
smoothness from the variance and jerkiness of the motion-vector window, tempo
from within-phase frame intervals and cross-phase duration quotients (each
extreme quotient multiplies the consistency by 0.85). -/
noncomputable def analyze_shot_smoothness_tempo (lm : FrameLandmarks)
    (current_phase : Phase) (s0 : Option SmoothnessState) (frame_count : ℤ) :
    (ℝ × ℝ) × SmoothnessState :=
  let s := s0.getD ⟨[], [], []⟩
  let motion_vector : MVec :=
    ⟨lm.rElbow.x - lm.rShoulder.x, lm.rElbow.y - lm.rShoulder.y,
     lm.rWrist.x - lm.rElbow.x, lm.rWrist.y - lm.rElbow.y,
     lm.rWrist.x - lm.rShoulder.x, lm.rWrist.y - lm.rShoulder.y⟩
  let mh0 := s.motion_history ++ [motion_vector]
  let mh := if mh0.length > 15 then mh0.tail else mh0
  let smoothness_score :=
    if mh.length ≥ 4 then
      let motion_changes := adjacentMap (fun p c => mvNorm (mvSub c p)) mh
      let acceleration_changes := adjacentMap (fun p c => |c - p|) motion_changes
      let ss1 :=
        if motion_changes ≠ [] then
          let motion_variance := listVar motion_changes
          let mean_motion := listMean motion_changes
          let variance_penalty :=
            if mean_motion > 0 then motion_variance / mean_motion * 2
            else motion_variance * 20
          max 0.3 (1 - min variance_penalty 0.7)
        else 0.9
      if acceleration_changes ≠ [] then
        let max_acceleration := pythonMax acceleration_changes
        let jerk_penalty := min (max_acceleration * 3) 0.3
        max 0.3 (ss1 - jerk_penalty)
      else ss1
    else 0.9
  let pfc := assocSet s.phase_frame_counts current_phase
    ((assocGet s.phase_frame_counts current_phase).getD 0 + 1)
  let tm := assocSet s.tempo_markers current_phase
    ((assocGet s.tempo_markers current_phase).getD [] ++ [frame_count])
  let tempo1 :=
    if ((assocGet tm current_phase).getD []).length ≥ 3 then
      let phase_frames := (assocGet tm current_phase).getD []
      let frame_intervals := adjacentMap (fun p c => ((c - p : ℤ) : ℝ)) phase_frames
      if frame_intervals ≠ [] then
        let interval_variance := listVar frame_intervals
        let mean_interval := listMean frame_intervals
        if mean_interval > 0 then
          max 0.4 (1 - min (interval_variance / mean_interval) 0.5)
        else 0.85
      else 0.85
    else 0.85
  let tempo_consistency :=
    if pfc.length ≥ 2 then
      let phase_durations : List ℕ := pfc.map (fun kv => kv.2)
      if phase_durations.length ≥ 2 then
        let duration_pairs := adjacentMap (fun p c => (p, c)) phase_durations
        let rts := duration_pairs.filterMap (fun pc =>
          if pc.1 > 0 then some ((pc.2 : ℝ) / (pc.1 : ℝ)) else none)
        rts.foldl (fun t r => if r > 3.0 ∨ r < 0.33 then t * 0.85 else t) tempo1
      else tempo1
    else tempo1
  ((smoothness_score, tempo_consistency), ⟨mh, tm, pfc⟩)

/-- One flaw value of the `flaws` dict built by `analyze_phase_specific_flaws`
(the coaching strings carry no logic and are omitted). -/
structure FlawRec where
  priority : ℕ
  severity : ℝ
  phase : Phase

/-- The analyzer attributes read or written by `analyze_phase_specific_flaws`
and its helper analyzers.  The `Option (Option ℝ)` fields model a possibly
missing attribute (`hasattr`) whose stored value may itself be NaN. -/
structure AnalyzeState where
  shooting_started : Bool
  release_detected : Bool
  frame_count : ℤ
  phase_history : List Phase
  previous_follow_through_wrist_angle : Option (Option ℝ)
  previous_arm_extension : Option (Option ℝ)
  release_hip_height : Option ℝ
  previous_wrist_position : Option (ℝ × ℝ)
  immediate_thumb_capture_frame : Option ℤ
  thumb_flick_flaw_tracker : Option ThumbFlickTracker
  smooth : Option SmoothnessState
  guide : Option GuideHandState

/-- The `current_phase == "preparation"` branch of
`analyze_phase_specific_flaws`.  A NaN knee angle (`none`) makes the knee-bend
comparison false, as in NumPy. -/
noncomputable def preparationFlaws (lm : FrameLandmarks) : List (String × FlawRec) :=
  let flaws : List (String × FlawRec) := []
  let hip_center_x := (lm.lHip.x + lm.rHip.x) / 2
  let shoulder_center_x := (lm.lShoulder.x + lm.rShoulder.x) / 2
  let balance_deviation := |shoulder_center_x - hip_center_x|
  let flaws :=
    if balance_deviation > 0.015 then
      assocSet flaws "preparation_balance"
        ⟨1, min (balance_deviation * 500) 100, Phase.preparation⟩
    else flaws
  let stance_width := |lm.lHip.x - lm.rHip.x|
  let flaws :=
    if stance_width < 0.09 ∨ stance_width > 0.20 then
      assocSet flaws "preparation_stance"
        ⟨2, if stance_width < 0.09 then 80 else min ((stance_width - 0.20) * 300) 70,
         Phase.preparation⟩
    else flaws
  let left_knee_angle := calculate_angle lm.lHip lm.lKnee lm.lAnkle
  let right_knee_angle := calculate_angle lm.rHip lm.rKnee lm.rAnkle
  let flaws :=
    match left_knee_angle, right_knee_angle with
    | some lka, some rka =>
      let avg_knee_angle := (lka + rka) / 2
      if avg_knee_angle < 150 ∨ avg_knee_angle > 170 then
        assocSet flaws "preparation_knee_bend"
          ⟨3, min |avg_knee_angle - 160| 20 / 20 * 100, Phase.preparation⟩
      else flaws
    | _, _ => flaws
  let shoulder_tilt := |lm.lShoulder.y - lm.rShoulder.y|
  if shoulder_tilt > 0.012 then
    assocSet flaws "preparation_shoulder_alignment"
      ⟨4, min (shoulder_tilt * 2500) 100, Phase.preparation⟩
  else flaws

open Classical in
/-- The `current_phase == "shooting"` branch of
`analyze_phase_specific_flaws`; `gi` / `gp` are the interference and placement
scores returned by `analyze_guide_hand_mechanics`. -/
noncomputable def shootingFlaws (lm : FrameLandmarks) (release_detected : Bool)
    (gi gp : ℝ) : List (String × FlawRec) :=
  let flaws : List (String × FlawRec) := []
  let elbow_angle := calculate_angle lm.rShoulder lm.rElbow lm.rWrist
  let flaws :=
    match elbow_angle with
    | some ea =>
      if ea < 85 ∨ ea > 105 then
        assocSet flaws "shooting_elbow" ⟨1, min |ea - 95| 20 / 20 * 100, Phase.shooting⟩
      else flaws
    | none => flaws
  let wrist_shoulder_delta := (lm.rShoulder.y - lm.rWrist.y) * 100
  let too_late_in_motion :=
    (match elbow_angle with | some a => 150 ≤ a | none => False) ∨
      20 ≤ wrist_shoulder_delta
  let flaws :=
    if release_detected = false ∧ ¬ too_late_in_motion then
      let hand_elevated := lm.rWrist.y < lm.rShoulder.y - 0.05
      let arm_part_extended := match elbow_angle with | some a => a > 100 | none => False
      if hand_elevated ∧ arm_part_extended then
        let hand_alignment := |lm.rWrist.x - lm.nose.x|
        if hand_alignment > 0.08 then
          assocSet flaws "shooting_alignment"
            ⟨2, min (hand_alignment * 400) 100, Phase.shooting⟩
        else flaws
      else flaws
    else flaws
  let left_knee_angle := calculate_angle lm.lHip lm.lKnee lm.lAnkle
  let right_knee_angle := calculate_angle lm.rHip lm.rKnee lm.rAnkle
  let flaws :=
    match left_knee_angle, right_knee_angle with
    | some lka, some rka =>
      let avg_knee_angle := (lka + rka) / 2
      if avg_knee_angle < 140 ∨ avg_knee_angle > 160 then
        assocSet flaws "shooting_power_generation"
          ⟨3, min |avg_knee_angle - 150| 15 / 15 * 100, Phase.shooting⟩
      else flaws
    | _, _ => flaws
  let shooting_plane_deviation := |lm.rShoulder.x - lm.rWrist.x|
  let flaws :=
    if shooting_plane_deviation > 0.04 then
      assocSet flaws "shooting_plane_deviation"
        ⟨4, min (shooting_plane_deviation * 800) 100, Phase.shooting⟩
    else flaws
  if gi > 0.3 ∨ gp < 0.7 then
    assocSet flaws "guide_hand_interference"
      ⟨2, min (gi * 70 + (1 - gp) * 60) 100, Phase.shooting⟩
  else flaws

open Classical in
/-- The `current_phase == "release"` branch of
`analyze_phase_specific_flaws`; `wsa` / `wss` are the results of
`analyze_wrist_snap` (a NaN snap angle makes both its comparisons false). -/
noncomputable def releaseFlaws (lm : FrameLandmarks) (wsa : Option ℝ) (wss : ℝ) :
    List (String × FlawRec) :=
  let flaws : List (String × FlawRec) := []
  let avg_shoulder_y := (lm.lShoulder.y + lm.rShoulder.y) / 2
  let release_height := avg_shoulder_y - lm.rWrist.y
  let flaws :=
    if release_height < 0.05 then
      assocSet flaws "release_height"
        ⟨1, min ((0.12 - release_height) * 400) 100, Phase.release⟩
    else flaws
  let follow_through := calculate_angle lm.rElbow lm.rWrist
    ⟨lm.rWrist.x, lm.rWrist.y - 0.1⟩
  let flaws :=
    match follow_through with
    | some ft =>
      if ft < 50 ∨ ft > 75 then
        assocSet flaws "release_follow_through"
          ⟨2, min |ft - 62| 18 / 18 * 100, Phase.release⟩
      else flaws
    | none => flaws
  let extension_angle := calculate_angle lm.rShoulder lm.rElbow lm.rWrist
  let flaws :=
    match extension_angle with
    | some ext =>
      if ext < 160 then
        assocSet flaws "release_extension"
          ⟨3, min ((170 - ext) * 3) 100, Phase.release⟩
      else flaws
    | none => flaws
  let angle_bad := match wsa with | some a => a < 60 ∨ a > 85 | none => False
  if angle_bad ∨ wss < 2.5 then
    let angle_severity :=
      match wsa with
      | some a => if a < 60 ∨ a > 85 then min (|a - 72.5| * 2.5) 60 else 0
      | none => 0
    let speed_severity := if wss < 2.5 then min ((2.5 - wss) * 25) 40 else 0
    assocSet flaws "wrist_snap_mechanics"
      ⟨2, min (angle_severity + speed_severity) 100, Phase.release⟩
  else flaws

open Classical in
/-- A conditional `flaws[key] = record` statement: the common shape of every
flaw-dict assignment in `analyze_phase_specific_flaws`. -/
noncomputable def addFlaw (c : Prop) (l : List (String × FlawRec)) (k : String)
    (v : FlawRec) : List (String × FlawRec) :=
  if c then assocSet l k v else l

open Classical in
/-- A conditional `if key not in flaws: flaws[key] = record` statement, the
shape used by the universal follow-through block. -/
noncomputable def addFlawIfAbsent (c : Prop) (l : List (String × FlawRec))
    (k : String) (v : FlawRec) : List (String × FlawRec) :=
  if c ∧ assocGet l k = none then assocSet l k v else l

/-- Result of the follow-through phase branch: the flaw dict and the updated
`previous_follow_through_wrist_angle` and `release_hip_height` attributes. -/
structure FollowThroughResult where
  flaws : List (String × FlawRec)
  previous_follow_through_wrist_angle : Option (Option ℝ)
  release_hip_height : Option ℝ

open Classical in
/-- The `current_phase == "follow_through"` branch of
`analyze_phase_specific_flaws`; `tffs` / `ghi` are the results of the
`analyze_thumb_flick` call made at the top of the branch. -/
noncomputable def followThroughFlaws (lm : FrameLandmarks) (cp : Phase)
    (tffs ghi : ℝ) (pftwa : Option (Option ℝ)) (phase_history : List Phase)
    (rhh0 : Option ℝ) : FollowThroughResult :=
  let follow_through := calculate_angle lm.rElbow lm.rWrist
    ⟨lm.rWrist.x, lm.rWrist.y - 0.1⟩
  let flaws : List (String × FlawRec) := []
  let flaws := addFlaw (tffs > 0.05 ∨ ghi > 0.02) flaws "thumb_flick_technique"
    ⟨2, min (tffs * 100 + ghi * 80) 100, Phase.follow_through⟩
  let hip_center_x := (lm.lHip.x + lm.rHip.x) / 2
  let shoulder_center_x := (lm.lShoulder.x + lm.rShoulder.x) / 2
  let balance_deviation := |shoulder_center_x - hip_center_x|
  let flaws := addFlaw (balance_deviation > 0.06) flaws "follow_through_balance"
    ⟨3, min (balance_deviation * 300) 100, Phase.follow_through⟩
  let current_wrist_angle := calculate_angle lm.rElbow lm.rWrist
    ⟨lm.rWrist.x, lm.rWrist.y - 0.1⟩
  let flaws :=
    match pftwa with
    | some prev =>
      (match current_wrist_angle, prev with
       | some c, some p =>
         let wrist_snap_speed := |c - p|
         addFlaw (wrist_snap_speed < 8 ∨ wrist_snap_speed > 25) flaws
           "wrist_snap_timing"
           ⟨2, min |wrist_snap_speed - 15| 10 / 10 * 100, Phase.follow_through⟩
       | _, _ => flaws)
    | none => flaws
  let flaws :=
    match follow_through with
    | some ft =>
      addFlaw (|ft - 55| > 10) flaws "follow_through_angle"
        ⟨3, min ((|ft - 55| - 10) * 5) 100, Phase.follow_through⟩
    | none => flaws
  let landing :=
    if phase_history.length ≥ 3 then
      let current_hip_height := (lm.lHip.y + lm.rHip.y) / 2
      let flaws2 :=
        match rhh0 with
        | some rhh =>
          let hip_height_change := current_hip_height - rhh
          addFlaw (|hip_height_change| > 0.08) flaws "landing_balance"
            ⟨2, min (|hip_height_change| * 500) 100, Phase.follow_through⟩
        | none => flaws
      (flaws2, if cp = Phase.release then some current_hip_height else rhh0)
    else (flaws, rhh0)
  ⟨landing.1, some current_wrist_angle, landing.2⟩

open Classical in
/-- The universal comprehensive follow-through block of
`analyze_phase_specific_flaws`: when the arm is extended at least 140° after
shooting started (during release/shooting, or with declining extension), it
re-runs the follow-through analyses, adding only flaws whose key is not yet in
the dict, and stores `previous_arm_extension` and
`previous_follow_through_wrist_angle`. -/
noncomputable def universalStep (lm : FrameLandmarks) (cp : Phase)
    (flaws0 : List (String × FlawRec)) (st : AnalyzeState) :
    List (String × FlawRec) × AnalyzeState :=
  let arm_extension := calculate_angle lm.rShoulder lm.rElbow lm.rWrist
  let trigger :=
    match arm_extension with
    | some a =>
      st.shooting_started = true ∧ 140 ≤ a ∧
        (cp = Phase.release ∨ cp = Phase.shooting ∨
          (match st.previous_arm_extension with
           | some (some p) => a < p
           | _ => False))
    | none => False
  if trigger then
    let follow_through_angle := calculate_angle lm.rElbow lm.rWrist
      ⟨lm.rWrist.x, lm.rWrist.y - 0.1⟩
    let tres := analyze_thumb_flick lm st.thumb_flick_flaw_tracker st.frame_count
      st.immediate_thumb_capture_frame
    let tffs := tres.1.1
    let ghi := tres.1.2
    let flaws := addFlawIfAbsent (tffs > 0.05 ∨ ghi > 0.02) flaws0
      "thumb_flick_technique"
      ⟨2, min (tffs * 100 + ghi * 80) 100, Phase.follow_through⟩
    let hip_center_x := (lm.lHip.x + lm.rHip.x) / 2
    let shoulder_center_x := (lm.lShoulder.x + lm.rShoulder.x) / 2
    let balance_deviation := |shoulder_center_x - hip_center_x|
    let flaws := addFlawIfAbsent (balance_deviation > 0.06) flaws
      "follow_through_balance"
      ⟨3, min (balance_deviation * 300) 100, Phase.follow_through⟩
    let current_wrist_angle := calculate_angle lm.rElbow lm.rWrist
      ⟨lm.rWrist.x, lm.rWrist.y - 0.1⟩
    let flaws :=
      match st.previous_follow_through_wrist_angle with
      | some prev =>
        (match current_wrist_angle, prev with
         | some c, some p =>
           let wrist_snap_speed := |c - p|
           addFlawIfAbsent (wrist_snap_speed < 8 ∨ wrist_snap_speed > 25) flaws
             "wrist_snap_timing"
             ⟨2, min |wrist_snap_speed - 15| 10 / 10 * 100, Phase.follow_through⟩
         | _, _ => flaws)
      | none => flaws
    let flaws :=
      match follow_through_angle with
      | some fta =>
        addFlawIfAbsent (|fta - 55| > 10) flaws "follow_through_angle"
          ⟨3, min ((|fta - 55| - 10) * 5) 100, Phase.follow_through⟩
      | none => flaws
    let landing :=
      if st.phase_history.length ≥ 3 then
        let current_hip_height := (lm.lHip.y + lm.rHip.y) / 2
        let flaws2 :=
          match st.release_hip_height with
          | some rhh =>
            let hip_height_change := current_hip_height - rhh
            addFlawIfAbsent (|hip_height_change| > 0.08) flaws "landing_balance"
              ⟨2, min (|hip_height_change| * 500) 100, Phase.follow_through⟩
          | none => flaws
        (flaws2, if cp = Phase.release then some current_hip_height else st.release_hip_height)
      else (flaws, st.release_hip_height)
    (landing.1,
     { st with previous_arm_extension := some arm_extension,
               previous_follow_through_wrist_angle := some current_wrist_angle,
               thumb_flick_flaw_tracker := some tres.2.1,
               immediate_thumb_capture_frame := tres.2.2,
               release_hip_height := landing.2 })
  else (flaws0, st)

open Classical in
/-- Shallow embedding of `ShotAnalyzer.analyze_phase_specific_flaws`: the
phase-specific branch, then the universal follow-through block, then the
smoothness/tempo flaw; returns the flaw dict and the updated analyzer state.
`ghPhase` is the phase the inner `detect_shooting_phase` call of
`analyze_guide_hand_mechanics` returns. -/
noncomputable def analyze_phase_specific_flaws (lm : FrameLandmarks)
    (current_phase ghPhase : Phase) (st : AnalyzeState) :
    List (String × FlawRec) × AnalyzeState :=
  let branch : List (String × FlawRec) × AnalyzeState :=
    match current_phase with
    | Phase.preparation => (preparationFlaws lm, st)
    | Phase.shooting =>
      let gres := analyze_guide_hand_mechanics lm st.guide ghPhase
      (shootingFlaws lm st.release_detected gres.1.1 gres.1.2.1,
       { st with guide := some gres.2 })
    | Phase.release =>
      let wres := analyze_wrist_snap lm st.previous_wrist_position
      (releaseFlaws lm wres.1.1 wres.1.2,
       { st with previous_wrist_position := some wres.2 })
    | Phase.follow_through =>
      let tres := analyze_thumb_flick lm st.thumb_flick_flaw_tracker st.frame_count
        st.immediate_thumb_capture_frame
      let fres := followThroughFlaws lm current_phase tres.1.1 tres.1.2
        st.previous_follow_through_wrist_angle st.phase_history st.release_hip_height
      (fres.flaws,
       { st with thumb_flick_flaw_tracker := some tres.2.1,
                 immediate_thumb_capture_frame := tres.2.2,
                 previous_follow_through_wrist_angle :=
                   fres.previous_follow_through_wrist_angle,
                 release_hip_height := fres.release_hip_height })
    | Phase.unknown => ([], st)
  let ures := universalStep lm current_phase branch.1 branch.2
  let sres := analyze_shot_smoothness_tempo lm current_phase ures.2.smooth
    ures.2.frame_count
  let ss := sres.1.1
  let tc := sres.1.2
  let flaws :=
    if ss < 0.85 ∨ tc < 0.80 then
      assocSet ures.1 "shot_smoothness_tempo"
        ⟨3, min ((1 - ss) * 60 + (1 - tc) * 60) 100, current_phase⟩
    else ures.1
  (flaws, { ures.2 with smooth := some sres.2 })

/-- The `priority_weights` table of `analyze_detailed_flaws`
(`.get(priority, 0.01)` default for priorities outside 1..6). -/
def priority_weights (p : ℕ) : ℝ :=
  if p = 1 then 0.25 else if p = 2 then 0.20 else if p = 3 then 0.15
  else if p = 4 then 0.10 else if p = 5 then 0.05 else if p = 6 then 0.05
  else 0.01

/-- The `overall_score` computation of `analyze_detailed_flaws`:
`max(0.50, max(0.65, 1 - total_impact))` where each flaw contributes
`(severity / 100) * weight * 0.5`. -/
noncomputable def analyze_detailed_flaws_overall_score
    (flaws : List (String × FlawRec)) : ℝ :=
  let total_impact :=
    (flaws.map (fun kv => kv.2.severity / 100 * priority_weights kv.2.priority * 0.5)).sum
  max 0.50 (max 0.65 (1 - total_impact))

/-- The severity-bounds predicate of C9: a flaw's severity lies in [0, 100]. -/
def sevOK (kv : String × FlawRec) : Prop :=
  0 ≤ kv.2.severity ∧ kv.2.severity ≤ 100

theorem forall_assocSet {κ β : Type} [DecidableEq κ] (P : κ × β → Prop)
    (l : List (κ × β)) (k : κ) (v : β) (hl : l.Forall P) (hv : P (k, v)) :
    (assocSet l k v).Forall P := by
  induction l with
  | nil => simpa [assocSet] using hv
  | cons kv rest ih =>
    rw [List.forall_cons] at hl
    by_cases h : kv.1 = k
    · rw [assocSet, if_pos h, List.forall_cons]
      exact ⟨hv, hl.2⟩
    · rw [assocSet, if_neg h, List.forall_cons]
      exact ⟨hl.1, ih hl.2⟩

theorem forall_step (P : String × FlawRec → Prop) (l : List (String × FlawRec))
    (c : Prop) (inst : Decidable c) (k : String) (v : FlawRec)
    (hl : l.Forall P) (hv : c → P (k, v)) :
    (@ite _ c inst (assocSet l k v) l).Forall P := by
  rcases inst with hn | hy
  · simpa [if_neg hn] using hl
  · simpa [if_pos hy] using forall_assocSet P l k v hl (hv hy)

theorem forall_addFlaw (P : String × FlawRec → Prop) (c : Prop)
    (l : List (String × FlawRec)) (k : String) (v : FlawRec)
    (hl : l.Forall P) (hv : c → P (k, v)) : (addFlaw c l k v).Forall P := by
  unfold addFlaw
  split_ifs with h
  · exact forall_assocSet P l k v hl (hv h)
  · exact hl

theorem forall_addFlawIfAbsent (P : String × FlawRec → Prop) (c : Prop)
    (l : List (String × FlawRec)) (k : String) (v : FlawRec)
    (hl : l.Forall P) (hv : c → P (k, v)) : (addFlawIfAbsent c l k v).Forall P := by
  unfold addFlawIfAbsent
  split_ifs with h
  · exact forall_assocSet P l k v hl (hv h.1)
  · exact hl

theorem sev_minc (x c : ℝ) (hx : 0 ≤ x) (h0 : 0 ≤ c) (hc : c ≤ 100) :
    0 ≤ min x c ∧ min x c ≤ 100 :=
  ⟨le_min hx h0, le_trans (min_le_right x c) hc⟩

theorem sev_ratioform (d c : ℝ) (hd : 0 ≤ d) (hc : 0 < c) :
    0 ≤ min d c / c * 100 ∧ min d c / c * 100 ≤ 100 := by
  constructor
  · have := le_min hd hc.le
    positivity
  · have h1 : min d c ≤ c := min_le_right d c
    have h2 : min d c / c ≤ 1 := (div_le_one hc).mpr h1
    nlinarith

theorem listMean_nonneg (l : List ℝ) (h : ∀ x ∈ l, 0 ≤ x) : 0 ≤ listMean l :=
  div_nonneg (List.sum_nonneg h) (Nat.cast_nonneg _)

theorem listVar_nonneg (l : List ℝ) : 0 ≤ listVar l := by
  refine div_nonneg (List.sum_nonneg ?_) (Nat.cast_nonneg _)
  intro x hx
  obtain ⟨y, _, rfl⟩ := List.mem_map.mp hx
  positivity

theorem le_foldl_max (x : ℝ) (l : List ℝ) : x ≤ l.foldl max x := by
  induction l generalizing x with
  | nil => exact le_refl x
  | cons h t ih => exact le_trans (le_max_left x h) (ih (max x h))

theorem pythonMax_nonneg (l : List ℝ) (h : ∀ x ∈ l, 0 ≤ x) : 0 ≤ pythonMax l := by
  cases l with
  | nil => exact le_refl 0
  | cons x r =>
    exact le_trans (h x (List.mem_cons_self x r)) (le_foldl_max x r)

theorem adjacentMap_nonneg {α : Type} (f : α → α → ℝ)
    (hf : ∀ a b, 0 ≤ f a b) :
    ∀ (l : List α), ∀ y ∈ adjacentMap f l, 0 ≤ y := by
  intro l
  induction l with
  | nil => intro y hy; simp [adjacentMap] at hy
  | cons a t ih =>
    cases t with
    | nil => intro y hy; simp [adjacentMap] at hy
    | cons b r =>
      intro y hy
      rw [adjacentMap, List.mem_cons] at hy
      rcases hy with rfl | hy
      · exact hf a b
      · exact ih y hy

theorem analyze_thumb_flick_bounds (lm : FrameLandmarks)
    (tr0 : Option ThumbFlickTracker) (fc : ℤ) (itcf0 : Option ℤ) :
    0 ≤ (analyze_thumb_flick lm tr0 fc itcf0).1.1 ∧
    0 ≤ (analyze_thumb_flick lm tr0 fc itcf0).1.2 := by
  unfold analyze_thumb_flick
  simp only [show ("preparation" = "release" ∨ "preparation" = "follow_through") ↔ False
      from by simp,
    show ("preparation" = "follow_through") ↔ False from by simp,
    show ("preparation" = "release") ↔ False from by simp,
    false_and, and_false, if_false, ite_self, ite_false, false_or, not_false_iff]
  simp only [Bool.false_eq_true, if_false, ite_false]
  constructor
  · refine le_min (div_nonneg ?_ (by norm_num)) (by norm_num)
    refine add_nonneg (mul_nonneg ?_ (by norm_num)) (by norm_num)
    apply ite_nonneg
    · apply ite_nonneg
      · exact le_min (mul_nonneg (listMean_nonneg _
          (adjacentMap_nonneg _ (fun a b => abs_nonneg _) _)) (by norm_num)) (by norm_num)
      · exact le_refl 0
    · exact le_refl 0
  · exact le_trans (by norm_num) (le_max_right _ _)

theorem pairDist_nonneg (p q : ℝ × ℝ) : 0 ≤ pairDist p q := Real.sqrt_nonneg _

theorem guidePlacementScore_bounds (lm : FrameLandmarks) :
    0 ≤ guidePlacementScore lm ∧ guidePlacementScore lm ≤ 1 := by
  unfold guidePlacementScore
  dsimp only
  split_ifs with h
  · refine ⟨le_max_left 0 _, max_le (by norm_num) ?_⟩
    have hpi : (0 : ℝ) < Real.pi / 2 := by positivity
    have h0 : 0 ≤ |Real.pi / 2 - Real.arccos (max (-1) (min 1
        (((lm.rWrist.x - lm.rShoulder.x) * (lm.lWrist.x - lm.rWrist.x) +
          (lm.rWrist.y - lm.rShoulder.y) * (lm.lWrist.y - lm.rWrist.y)) /
          (Real.sqrt ((lm.rWrist.x - lm.rShoulder.x) ^ 2 +
            (lm.rWrist.y - lm.rShoulder.y) ^ 2) *
           Real.sqrt ((lm.lWrist.x - lm.rWrist.x) ^ 2 +
            (lm.lWrist.y - lm.rWrist.y) ^ 2)))))| / (Real.pi / 2) := by positivity
    linarith
  · exact ⟨by norm_num, by norm_num⟩

theorem guideInterferencePair_nonneg (gts : ℝ) (hist : List (ℝ × ℝ))
    (vh0 : List ℝ) : 0 ≤ (guideInterferencePair gts hist vh0).1 := by
  unfold guideInterferencePair
  dsimp only
  split_ifs with h1 h2 h3 h4 h5 h6
  all_goals try exact le_refl 0
  all_goals refine le_min (add_nonneg (add_nonneg ?_ ?_) ?_) (by norm_num)
  all_goals first
    | exact le_min (mul_nonneg (listMean_nonneg _
        (adjacentMap_nonneg _ (fun a b => pairDist_nonneg a b) _)) (by norm_num))
        (by norm_num)
    | exact le_min (mul_nonneg (pythonMax_nonneg _
        (adjacentMap_nonneg _ (fun a b => pairDist_nonneg a b) _)) (by norm_num))
        (by norm_num)
    | linarith
    | exact le_refl 0

theorem analyze_guide_hand_mechanics_bounds (lm : FrameLandmarks)
    (g0 : Option GuideHandState) (ip : Phase) :
    0 ≤ (analyze_guide_hand_mechanics lm g0 ip).1.1 ∧
    0 ≤ (analyze_guide_hand_mechanics lm g0 ip).1.2.1 ∧
    (analyze_guide_hand_mechanics lm g0 ip).1.2.1 ≤ 1 := by
  unfold analyze_guide_hand_mechanics
  dsimp only
  refine ⟨?_, (guidePlacementScore_bounds lm).1, (guidePlacementScore_bounds lm).2⟩
  split_ifs <;>
    first
      | exact add_nonneg (guideInterferencePair_nonneg _ _ _) (by norm_num)
      | exact guideInterferencePair_nonneg _ _ _

theorem smooth_inner_le_one (vp : ℝ) (hvp : 0 ≤ vp) :
    max 0.3 (1 - min vp 0.7) ≤ 1 := by
  have h := le_min hvp (by norm_num : (0 : ℝ) ≤ 0.7)
  exact max_le (by norm_num) (by linarith)

theorem smooth_jerk_le_one (s j : ℝ) (hs : s ≤ 1) (hj : 0 ≤ j) :
    max 0.3 (s - j) ≤ 1 := max_le (by norm_num) (by linarith)

theorem foldl_tempo_le_one (l : List ℝ) (t : ℝ) (ht : t ≤ 1) :
    l.foldl (fun t r => if r > 3.0 ∨ r < 0.33 then t * 0.85 else t) t ≤ 1 := by
  induction l generalizing t with
  | nil => exact ht
  | cons r rs ih =>
    refine ih _ ?_
    dsimp only
    split_ifs
    · rcases le_or_lt 0 t with h0 | h0
      · nlinarith
      · nlinarith
    · exact ht

theorem tempo_inner_le_one (iv mi : ℝ) (hiv : 0 ≤ iv) (hmi : 0 < mi) :
    max 0.4 (1 - min (iv / mi) 0.5) ≤ 1 := by
  have h2 : 0 ≤ min (iv / mi) 0.5 := le_min (div_nonneg hiv hmi.le) (by norm_num)
  exact max_le (by norm_num) (by linarith)

set_option maxHeartbeats 2000000 in
theorem analyze_shot_smoothness_tempo_bounds (lm : FrameLandmarks) (cp : Phase)
    (s0 : Option SmoothnessState) (fc : ℤ) :
    (analyze_shot_smoothness_tempo lm cp s0 fc).1.1 ≤ 1 ∧
    (analyze_shot_smoothness_tempo lm cp s0 fc).1.2 ≤ 1 := by
  unfold analyze_shot_smoothness_tempo
  dsimp only
  constructor
  · split_ifs
    all_goals first
      | (norm_num; done)
      | (refine smooth_inner_le_one _ ?_
         first
           | exact mul_nonneg (listVar_nonneg _) (by norm_num)
           | (refine mul_nonneg (div_nonneg (listVar_nonneg _) ?_) (by norm_num)
              linarith))
      | (refine smooth_jerk_le_one _ _ ?_ (le_min (mul_nonneg (pythonMax_nonneg _
            (adjacentMap_nonneg _ (fun a b => abs_nonneg _) _)) (by norm_num))
            (by norm_num))
         first
           | (norm_num; done)
           | (refine smooth_inner_le_one _ ?_
              first
                | exact mul_nonneg (listVar_nonneg _) (by norm_num)
                | (refine mul_nonneg (div_nonneg (listVar_nonneg _) ?_) (by norm_num)
                   linarith)))
  · split_ifs
    all_goals first
      | (norm_num; done)
      | (refine tempo_inner_le_one _ _ (listVar_nonneg _) ?_
         linarith)
      | (refine foldl_tempo_le_one _ _ ?_
         first
           | (norm_num; done)
           | (refine tempo_inner_le_one _ _ (listVar_nonneg _) ?_
              linarith))

theorem preparationFlaws_bounds (lm : FrameLandmarks) :
    (preparationFlaws lm).Forall sevOK := by
  unfold preparationFlaws
  dsimp only
  refine forall_step _ _ _ _ _ _ ?_ (fun h => sev_minc _ _ (by positivity) (by norm_num) (by norm_num))
  rcases calculate_angle lm.lHip lm.lKnee lm.lAnkle with _ | lka <;>
    rcases calculate_angle lm.rHip lm.rKnee lm.rAnkle with _ | rka <;>
    dsimp only
  all_goals try (refine forall_step _ _ _ _ _ _ ?_ (fun h => sev_ratioform _ _ (abs_nonneg _) (by norm_num)))
  all_goals (refine forall_step _ _ _ _ _ _ (forall_step _ _ _ _ _ _ (by trivial) ?_) ?_)
  all_goals
    first
      | (intro h
         exact sev_minc _ _ (by positivity) (by norm_num) (by norm_num))
      | (intro h
         dsimp only [sevOK]
         split_ifs with h2
         · exact ⟨by norm_num, by norm_num⟩
         · exact sev_minc _ _ (by nlinarith [h.resolve_left h2]) (by norm_num)
             (by norm_num))

theorem shootingFlaws_bounds (lm : FrameLandmarks) (rd : Bool) (gi gp : ℝ)
    (hgi : 0 ≤ gi) (hgp : gp ≤ 1) :
    (shootingFlaws lm rd gi gp).Forall sevOK := by
  unfold shootingFlaws
  dsimp only
  refine forall_step _ _ _ _ _ _ ?_ (fun h => sev_minc _ _ (by nlinarith) (by norm_num) (by norm_num))
  refine forall_step _ _ _ _ _ _ ?_ (fun h => sev_minc _ _ (by positivity) (by norm_num) (by norm_num))
  rcases calculate_angle lm.lHip lm.lKnee lm.lAnkle with _ | lka <;>
    rcases calculate_angle lm.rHip lm.rKnee lm.rAnkle with _ | rka <;>
    dsimp only
  all_goals try (refine forall_step _ _ _ _ _ _ ?_ (fun h => sev_ratioform _ _ (abs_nonneg _) (by norm_num)))
  all_goals rcases calculate_angle lm.rShoulder lm.rElbow lm.rWrist with _ | ea <;>
    dsimp only
  all_goals split_ifs
  all_goals repeat (first
    | exact (show List.Forall sevOK [] from trivial)
    | exact forall_assocSet _ _ _ _ (show List.Forall sevOK [] from trivial)
        (sev_minc _ _ (by positivity) (by norm_num) (by norm_num))
    | refine forall_assocSet _ _ _ _ ?_ (sev_minc _ _ (by positivity) (by norm_num) (by norm_num))
    | refine forall_assocSet _ _ _ _ ?_ (sev_ratioform _ _ (abs_nonneg _) (by norm_num)))

theorem releaseFlaws_bounds (lm : FrameLandmarks) (wsa : Option ℝ) (wss : ℝ) :
    (releaseFlaws lm wsa wss).Forall sevOK := by
  unfold releaseFlaws
  dsimp only
  rcases wsa with _ | a <;> dsimp only
  all_goals refine forall_step _ _ _ _ _ _ ?_ ?_
  all_goals try (intro h
                 dsimp only [sevOK]
                 refine sev_minc _ _ ?_ (by norm_num) (by norm_num)
                 split_ifs <;>
                   first
                     | exact add_nonneg (le_refl 0) (le_min (by nlinarith) (by norm_num))
                     | exact add_nonneg (le_refl 0) (le_refl 0)
                     | exact add_nonneg (le_min (by positivity) (by norm_num))
                         (le_min (by nlinarith) (by norm_num))
                     | exact add_nonneg (le_min (by positivity) (by norm_num)) (le_refl 0))
  all_goals rcases calculate_angle lm.rShoulder lm.rElbow lm.rWrist with _ | ext <;>
    dsimp only
  all_goals try (refine forall_step _ _ _ _ _ _ ?_ (fun h => sev_minc _ _ (by nlinarith) (by norm_num) (by norm_num)))
  all_goals rcases calculate_angle lm.rElbow lm.rWrist ⟨lm.rWrist.x, lm.rWrist.y - 0.1⟩ with _ | ft <;>
    dsimp only
  all_goals try (refine forall_step _ _ _ _ _ _ ?_ (fun h => sev_ratioform _ _ (abs_nonneg _) (by norm_num)))
  all_goals refine forall_step _ _ _ _ _ _ (by trivial) ?_
  all_goals intro h
  all_goals exact sev_minc _ _ (by nlinarith) (by norm_num) (by norm_num)

theorem followThroughFlaws_bounds (lm : FrameLandmarks) (cp : Phase)
    (tffs ghi : ℝ) (pftwa : Option (Option ℝ)) (ph : List Phase)
    (rhh0 : Option ℝ) (htf : 0 ≤ tffs) (hg : 0 ≤ ghi) :
    (followThroughFlaws lm cp tffs ghi pftwa ph rhh0).flaws.Forall sevOK := by
  unfold followThroughFlaws
  dsimp only
  rcases calculate_angle lm.rElbow lm.rWrist ⟨lm.rWrist.x, lm.rWrist.y - 0.1⟩ with _ | ft <;>
    rcases pftwa with _ | prev <;>
    (try rcases prev with _ | p) <;>
    rcases rhh0 with _ | rhh <;>
    dsimp only
  all_goals repeat' (first
    | exact (show List.Forall sevOK [] from trivial)
    | (refine forall_addFlaw _ _ _ _ _ ?_ ?bnd
       case bnd =>
         intro h
         exact sev_ratioform _ _ (abs_nonneg _) (by norm_num))
    | (refine forall_addFlaw _ _ _ _ _ ?_ ?bnd
       case bnd =>
         intro h
         refine sev_minc _ _ ?_ (by norm_num) (by norm_num)
         exact add_nonneg (mul_nonneg htf (by norm_num)) (mul_nonneg hg (by norm_num)))
    | (refine forall_addFlaw _ _ _ _ _ ?_ ?bnd
       case bnd =>
         intro h
         refine sev_minc _ _ ?_ (by norm_num) (by norm_num)
         positivity)
    | (refine forall_addFlaw _ _ _ _ _ ?_ ?bnd
       case bnd =>
         intro h
         refine sev_minc _ _ ?_ (by norm_num) (by norm_num)
         nlinarith [h])
    | (split <;> try dsimp only))

set_option maxHeartbeats 2000000 in
theorem universalStep_bounds (lm : FrameLandmarks) (cp : Phase)
    (flaws0 : List (String × FlawRec)) (st : AnalyzeState)
    (h0 : flaws0.Forall sevOK) :
    (universalStep lm cp flaws0 st).1.Forall sevOK := by
  obtain ⟨htf, hg⟩ := analyze_thumb_flick_bounds lm st.thumb_flick_flaw_tracker
    st.frame_count st.immediate_thumb_capture_frame
  unfold universalStep
  dsimp only
  set T := analyze_thumb_flick lm st.thumb_flick_flaw_tracker st.frame_count
    st.immediate_thumb_capture_frame with hT
  rcases calculate_angle lm.rShoulder lm.rElbow lm.rWrist with _ | ae <;> dsimp only
  · rw [if_neg not_false]
    exact h0
  rcases calculate_angle lm.rElbow lm.rWrist ⟨lm.rWrist.x, lm.rWrist.y - 0.1⟩ with _ | ft <;>
    rcases hpw : st.previous_follow_through_wrist_angle with _ | prev <;>
    (try rcases prev with _ | p) <;>
    rcases hrh : st.release_hip_height with _ | rhh <;>
    dsimp only
  all_goals repeat' (first
    | exact h0
    | exact False.elim ‹False›
    | (refine forall_addFlawIfAbsent _ _ _ _ _ ?_ ?bnd
       case bnd =>
         intro h
         exact sev_ratioform _ _ (abs_nonneg _) (by norm_num))
    | (refine forall_addFlawIfAbsent _ _ _ _ _ ?_ ?bnd
       case bnd =>
         intro h
         refine sev_minc _ _ ?_ (by norm_num) (by norm_num)
         exact add_nonneg (mul_nonneg htf (by norm_num)) (mul_nonneg hg (by norm_num)))
    | (refine forall_addFlawIfAbsent _ _ _ _ _ ?_ ?bnd
       case bnd =>
         intro h
         refine sev_minc _ _ ?_ (by norm_num) (by norm_num)
         positivity)
    | (refine forall_addFlawIfAbsent _ _ _ _ _ ?_ ?bnd
       case bnd =>
         intro h
         refine sev_minc _ _ ?_ (by norm_num) (by norm_num)
         nlinarith [h])
    | (split <;> try dsimp only))

theorem priority_weights_nonneg (p : ℕ) : 0 ≤ priority_weights p := by
  unfold priority_weights
  split_ifs <;> norm_num

theorem smooth_layer_bound (ss tc : ℝ) (hss : ss ≤ 1) (htc : tc ≤ 1) :
    0 ≤ min ((1 - ss) * 60 + (1 - tc) * 60) 100 ∧
    min ((1 - ss) * 60 + (1 - tc) * 60) 100 ≤ 100 :=
  sev_minc _ _ (by nlinarith) (by norm_num) (by norm_num)

set_option maxHeartbeats 1000000 in
theorem analyze_phase_specific_flaws_forall (lm : FrameLandmarks)
    (cp ghp : Phase) (st : AnalyzeState) :
    (analyze_phase_specific_flaws lm cp ghp st).1.Forall sevOK := by
  unfold analyze_phase_specific_flaws
  dsimp only
  refine forall_step _ _ _ _ _ _ ?_ ?bnd
  case bnd =>
    intro h
    exact smooth_layer_bound _ _
      (analyze_shot_smoothness_tempo_bounds lm cp _ _).1
      (analyze_shot_smoothness_tempo_bounds lm cp _ _).2
  refine universalStep_bounds _ _ _ _ ?_
  cases cp <;> dsimp only
  · exact preparationFlaws_bounds lm
  · exact shootingFlaws_bounds lm _ _ _
      (analyze_guide_hand_mechanics_bounds lm st.guide ghp).1
      (analyze_guide_hand_mechanics_bounds lm st.guide ghp).2.2
  · exact releaseFlaws_bounds lm _ _
  · exact followThroughFlaws_bounds lm _ _ _ _ _ _
      (analyze_thumb_flick_bounds lm st.thumb_flick_flaw_tracker st.frame_count
        st.immediate_thumb_capture_frame).1
      (analyze_thumb_flick_bounds lm st.thumb_flick_flaw_tracker st.frame_count
        st.immediate_thumb_capture_frame).2
  · exact (show List.Forall sevOK [] from trivial)

/-- C9: every flaw emitted by `analyze_phase_specific_flaws` — for any frame
landmarks, any phase, any reachable or unreachable analyzer state — carries a
severity in [0, 100], and the `overall_score` that `analyze_detailed_flaws`
computes from those flaws equals `max(0.50, max(0.65, 1 - total_impact))` with
`total_impact ≥ 0`, hence always lies in [0.65, 1]: never below the documented
0.65 floor (which subsumes the 0.50 cap) and never above 1. -/
theorem severity_and_score_bounds (lm : FrameLandmarks) (cp ghp : Phase)
    (st : AnalyzeState) :
    (analyze_phase_specific_flaws lm cp ghp st).1.Forall sevOK ∧
    0.65 ≤ analyze_detailed_flaws_overall_score
      (analyze_phase_specific_flaws lm cp ghp st).1 ∧
    analyze_detailed_flaws_overall_score
      (analyze_phase_specific_flaws lm cp ghp st).1 ≤ 1 := by
  have hf := analyze_phase_specific_flaws_forall lm cp ghp st
  refine ⟨hf, ?_, ?_⟩
  · unfold analyze_detailed_flaws_overall_score
    exact le_trans (le_max_left 0.65 _) (le_max_right 0.50 _)
  · unfold analyze_detailed_flaws_overall_score
    dsimp only
    have hti : 0 ≤ ((analyze_phase_specific_flaws lm cp ghp st).1.map
        (fun kv => kv.2.severity / 100 * priority_weights kv.2.priority * 0.5)).sum := by
      refine List.sum_nonneg ?_
      intro x hx
      obtain ⟨kv, hkv, rfl⟩ := List.mem_map.mp hx
      have hs := (List.forall_iff_forall_mem.mp hf kv hkv).1
      have hw := priority_weights_nonneg kv.2.priority
      exact mul_nonneg (mul_nonneg (div_nonneg hs (by norm_num)) hw)
        (by norm_num : (0 : ℝ) ≤ 0.5)
    refine max_le (by norm_num) (max_le (by norm_num) (by linarith))
